import Mathlib

/-!
Validation of kind cluster configurations.

A shallow embedding of `pkg/cluster/config/validate.go` (`Config.Validate`,
`Node.Validate`) and the properties of the error lists the two validators build.

Go values are embedded as follows.

* `NodeRole` is a Go string type, so a role is a `String`; the four role
  constants live in `types.go`, which is not part of the sources at hand, and
  are therefore a parameter (`RoleNames`) of every definition that uses them.
* A Go `error` result is an `Option`: `none` is `nil`, `some e` a non-nil error.
* `fmt.Errorf` with a verb-free format yields an error whose text is the format
  itself: such an error is the `String`. `fmt.Errorf` with verbs is kept as the
  call (`FmtError`): the format string and the arguments.
* A slice is a `List`; a nil slice and an empty slice both have length 0 and are
  both the empty list.
-/

set_option autoImplicit false

namespace Kind

/-! ## Data model -/

/-- The four `NodeRole` constants of `types.go` (`ControlPlaneRole`, `WorkerRole`,
`ExternalEtcdRole`, `ExternalLoadBalancerRole`). Their string values are declared
outside the sources at hand, so they are taken as a parameter. -/
structure RoleNames where
  ControlPlaneRole : String
  WorkerRole : String
  ExternalEtcdRole : String
  ExternalLoadBalancerRole : String
deriving DecidableEq, Repr

/-- A sample instantiation of the role constants, used to evaluate the
validators on concrete configurations. -/
def kindRoles : RoleNames :=
  { ControlPlaneRole := "control-plane"
    WorkerRole := "worker"
    ExternalEtcdRole := "external-etcd"
    ExternalLoadBalancerRole := "external-load-balancer" }

/-- A Go `int32`: an integer of the range `[-2^31, 2^31)`. -/
def GoInt32 : Type := { x : Int // -2147483648 ≤ x ∧ x < 2147483648 }

instance : DecidableEq GoInt32 := by
  unfold GoInt32
  infer_instance

/-- The Go conversion `int32(x)`: wrap-around into the 32-bit signed range. -/
def int32 (x : Int) : Int := (x + 2147483648) % 4294967296 - 2147483648

/-- A lifecycle hook; only `Command` is read by validation. -/
structure LifecycleHook where
  Command : List String
deriving DecidableEq, Repr

/-- The four hook groups of a node lifecycle. -/
structure NodeLifecycle where
  PreBoot : List LifecycleHook
  PreKubeadm : List LifecycleHook
  PostKubeadm : List LifecycleHook
  PostSetup : List LifecycleHook
deriving DecidableEq, Repr

/-- The `ControlPlane` sub-structure of a node; `NodeLifecycle` is a pointer. -/
structure ControlPlane where
  NodeLifecycle : Option NodeLifecycle
deriving DecidableEq, Repr

/-- A node of the configuration: `Replicas` and `ControlPlane` are pointers. -/
structure Node where
  Role : String
  Image : String
  Replicas : Option GoInt32
  ControlPlane : Option ControlPlane
deriving DecidableEq

/-- The configuration: the ordered sequence of its nodes. -/
structure Config where
  Nodes : List Node
deriving DecidableEq

/-! ## Errors -/

/-- Modelled from the spec: the `util.Errors` aggregate built by `util.NewErrors`
(package `util` is not part of the sources at hand): a value holding the ordered
list of the problems that were collected. -/
structure Errors (ε : Type) where
  errors : List ε
deriving DecidableEq, Repr

/-- Modelled from the spec: `util.NewErrors(errs)`, which wraps the collected
list without changing it. -/
def NewErrors {ε : Type} (errs : List ε) : Errors ε := ⟨errs⟩

/-- An argument of a `fmt.Errorf` call in `Config.Validate`. -/
inductive FmtArg where
  | int (i : Nat)
  | role (r : String)
  | err (e : Errors String)
deriving DecidableEq, Repr

/-- The error of a `fmt.Errorf(format, args...)` call, kept as the call. -/
structure FmtError where
  format : String
  args : List FmtArg
deriving DecidableEq, Repr

/-- The Go call `fmt.Errorf(format, args...)`. -/
def Errorf (format : String) (args : List FmtArg) : FmtError := ⟨format, args⟩

/-! ## Node.Validate -/

/-- The text of the role error (validate.go line 64). -/
def roleMsg : String := "role is a required field"

/-- The text of the image error (validate.go line 69). -/
def imageMsg : String := "image is a required field"

/-- The text of the replicas error (validate.go line 74). -/
def replicasMsg : String := "replicas number should not be a negative number"

/-- The text of the PreBoot hook error (validate.go line 83). -/
def preBootMsg : String := "preBoot hooks must set command to a non-empty value"

/-- The text of the PreKubeadm hook error (validate.go line 93). -/
def preKubeadmMsg : String := "preKubeadm hooks must set command to a non-empty value"

/-- The text of the PostKubeadm hook error (validate.go line 103). -/
def postKubeadmMsg : String := "postKubeadm hooks must set command to a non-empty value"

/-- The text of the PostSetup hook error (validate.go line 113): the source
repeats the PostKubeadm wording here. -/
def postSetupMsg : String := "postKubeadm hooks must set command to a non-empty value"

/-- The `switch n.Role` of lines 58-65: the case list of the four constants. -/
def roleRecognized (R : RoleNames) (role : String) : Bool :=
  role == R.ControlPlaneRole || role == R.WorkerRole ||
    role == R.ExternalEtcdRole || role == R.ExternalLoadBalancerRole

/-- One hook loop of lines 80-119: `for _, hook := range hooks` appends `msg` to
`errs` at the first hook with `len(hook.Command) == 0` and breaks. -/
def scanHooks (msg : String) : List LifecycleHook → List String → List String
  | [], errs => errs
  | hook :: rest, errs =>
    if hook.Command.length = 0 then errs ++ [msg] else scanHooks msg rest errs

/-- The slice `errs` of `Node.Validate` when line 122 is reached. -/
def Node.validateErrs (R : RoleNames) (n : Node) : List String :=
  let errs : List String := []
  let errs := if roleRecognized R n.Role then errs else errs ++ [roleMsg]
  let errs := if n.Image = "" then errs ++ [imageMsg] else errs
  let errs :=
    match n.Replicas with
    | some r => if int32 r.val < 0 then errs ++ [replicasMsg] else errs
    | none => errs
  match n.ControlPlane with
  | some cp =>
    match cp.NodeLifecycle with
    | some lc =>
      let errs := scanHooks preBootMsg lc.PreBoot errs
      let errs := scanHooks preKubeadmMsg lc.PreKubeadm errs
      let errs := scanHooks postKubeadmMsg lc.PostKubeadm errs
      let errs := scanHooks postSetupMsg lc.PostSetup errs
      errs
    | none => errs
  | none => errs

/-- The method `Node.Validate` (lines 54-127): `nil` when nothing was collected,
otherwise the aggregate of the collected errors. -/
def Node.Validate (R : RoleNames) (n : Node) : Option (Errors String) :=
  let errs := n.validateErrs R
  if errs.length > 0 then some (NewErrors errs) else none

/-! ## Config.Validate -/

/-- Modelled from the spec: `Config.BootStrapControlPlane` (helpers.go is not
part of the sources at hand): the first node in `Nodes` whose Role is
ControlPlane, `nil` when there is none. -/
def Config.BootStrapControlPlane (R : RoleNames) (c : Config) : Option Node :=
  c.Nodes.find? (fun n => n.Role == R.ControlPlaneRole)

/-- Modelled from the spec: `Config.ControlPlanes` (helpers.go is not part of
the sources at hand): all the nodes whose Role is ControlPlane. -/
def Config.ControlPlanes (R : RoleNames) (c : Config) : List Node :=
  c.Nodes.filter (fun n => n.Role == R.ControlPlaneRole)

/-- Modelled from the spec: `Config.ExternalLoadBalancer` (helpers.go is not part
of the sources at hand): an ExternalLoadBalancer node of `Nodes`, `nil` when no
such node exists. -/
def Config.ExternalLoadBalancer (R : RoleNames) (c : Config) : Option Node :=
  c.Nodes.find? (fun n => n.Role == R.ExternalLoadBalancerRole)

/-- The format of the wrapped node error (line 33). -/
def nodeFormat : String := "please fix invalid configuration for node %d: \n%v"

/-- The format of the control-plane-missing error (line 39). -/
def controlPlaneFormat : String := "please add at least one node with role %q"

/-- The format of the load-balancer error (line 43). -/
def loadBalancerFormat : String :=
  "please add a node with role %s because in the cluster there are more than one node with role %s"

/-- The wrapped error of line 33 for node `i` whose validation returned `err`. -/
def nodeError (i : Nat) (err : Errors String) : FmtError :=
  Errorf nodeFormat [FmtArg.int i, FmtArg.err err]

/-- The control-plane-missing error of line 39. -/
def controlPlaneError (R : RoleNames) : FmtError :=
  Errorf controlPlaneFormat [FmtArg.role R.ControlPlaneRole]

/-- The load-balancer error of line 43. -/
def loadBalancerError (R : RoleNames) : FmtError :=
  Errorf loadBalancerFormat
    [FmtArg.role R.ExternalLoadBalancerRole, FmtArg.role R.ControlPlaneRole]

/-- The loop of lines 31-35: `for i, n := range c.Nodes`, from index `i` on,
appending the wrapped error of every node whose `Validate` is not `nil`. -/
def validateNodes (R : RoleNames) : List Node → Nat → List FmtError → List FmtError
  | [], _, errs => errs
  | n :: rest, i, errs =>
    match n.Validate R with
    | some err => validateNodes R rest (i + 1) (errs ++ [nodeError i err])
    | none => validateNodes R rest (i + 1) errs

/-- The slice `errs` of `Config.Validate` when line 46 is reached. -/
def Config.validateErrs (R : RoleNames) (c : Config) : List FmtError :=
  let errs : List FmtError := []
  let errs := validateNodes R c.Nodes 0 errs
  let errs :=
    if (c.BootStrapControlPlane R).isNone then errs ++ [controlPlaneError R] else errs
  let errs :=
    if (c.ControlPlanes R).length > 1 ∧ (c.ExternalLoadBalancer R).isNone then
      errs ++ [loadBalancerError R]
    else errs
  errs

/-- The method `Config.Validate` (lines 27-50): `nil` when nothing was collected,
otherwise the aggregate of the collected errors. -/
def Config.Validate (R : RoleNames) (c : Config) : Option (Errors FmtError) :=
  let errs := c.validateErrs R
  if errs.length > 0 then some (NewErrors errs) else none

/-! ## Specification-side definitions -/

/-- Some hook of the group has an empty `Command`. -/
def hasEmptyCommand (hooks : List LifecycleHook) : Bool :=
  hooks.any (fun h => h.Command.isEmpty)

/-- The errors one hook loop adds: the loop run on an empty `errs`. -/
def groupErrs (msg : String) (hooks : List LifecycleHook) : List String :=
  scanHooks msg hooks []

/-- The lifecycle of a node: present when `ControlPlane` and
`ControlPlane.NodeLifecycle` are both non-nil. -/
def Node.lifecycle (n : Node) : Option NodeLifecycle :=
  n.ControlPlane.bind (fun cp => cp.NodeLifecycle)

/-- `Replicas` is present and negative. -/
def Node.replicasNegative (n : Node) : Bool :=
  match n.Replicas with
  | some r => decide (r.val < 0)
  | none => false

/-- The lifecycle is present and the chosen group has a hook with an empty
`Command`. -/
def Node.groupFails (n : Node) (group : NodeLifecycle → List LifecycleHook) : Bool :=
  match n.lifecycle with
  | some lc => hasEmptyCommand (group lc)
  | none => false

/-- The seven checks of a node as the specification lists them, in order: whether
the check fails, and the error it then reports. -/
def Node.checks (R : RoleNames) (n : Node) : List (Bool × String) :=
  [ (!roleRecognized R n.Role, roleMsg),
    (n.Image == "", imageMsg),
    (n.replicasNegative, replicasMsg),
    (n.groupFails NodeLifecycle.PreBoot, preBootMsg),
    (n.groupFails NodeLifecycle.PreKubeadm, preKubeadmMsg),
    (n.groupFails NodeLifecycle.PostKubeadm, postKubeadmMsg),
    (n.groupFails NodeLifecycle.PostSetup, postSetupMsg) ]

/-- The error list the specification describes for a node: the errors of the
failing checks, in the order of the checks. -/
def Node.expectedErrs (R : RoleNames) (n : Node) : List String :=
  ((n.checks R).filter (fun p => p.1)).map (fun p => p.2)

/-- The four hook error texts. -/
def hookMsgs : List String := [preBootMsg, preKubeadmMsg, postKubeadmMsg, postSetupMsg]

/-- The role, image and replicas errors of a node (lines 57-75), in order. -/
def Node.fieldErrs (R : RoleNames) (n : Node) : List String :=
  (if roleRecognized R n.Role then [] else [roleMsg]) ++
    (if n.Image = "" then [imageMsg] else []) ++
    (if n.replicasNegative then [replicasMsg] else [])

/-- A node on which every one of the seven checks fails. -/
def worstNode : Node :=
  { Role := "master"
    Image := ""
    Replicas := some ⟨-3, by decide⟩
    ControlPlane := some
      { NodeLifecycle := some
          { PreBoot := [⟨[]⟩]
            PreKubeadm := [⟨["a"]⟩, ⟨[]⟩, ⟨["b"]⟩]
            PostKubeadm := [⟨[]⟩, ⟨[]⟩]
            PostSetup := [⟨["ls", "-l"]⟩, ⟨[]⟩] } } }

/-- The wrapped node errors the specification describes: one for each index whose
node fails `Node.Validate`, in increasing order of the index. -/
def expectedNodeErrors (R : RoleNames) (nodes : List Node) : List FmtError :=
  nodes.enum.filterMap (fun p => (p.2.Validate R).map (nodeError p.1))

/-- The number of nodes whose Role is ControlPlane. -/
def Config.controlPlaneCount (R : RoleNames) (c : Config) : Nat :=
  c.Nodes.countP (fun n => n.Role == R.ControlPlaneRole)

/-- The number of nodes whose Role is ExternalLoadBalancer. -/
def Config.loadBalancerCount (R : RoleNames) (c : Config) : Nat :=
  c.Nodes.countP (fun n => n.Role == R.ExternalLoadBalancerRole)

/-- The error list the specification describes for a configuration: the wrapped
node errors, then the control-plane-missing error when no node has Role
ControlPlane, then the load-balancer error when more than one node has Role
ControlPlane and none has Role ExternalLoadBalancer. -/
def Config.expectedErrs (R : RoleNames) (c : Config) : List FmtError :=
  expectedNodeErrors R c.Nodes ++
    (if c.controlPlaneCount R = 0 then [controlPlaneError R] else []) ++
    (if 1 < c.controlPlaneCount R ∧ c.loadBalancerCount R = 0 then [loadBalancerError R]
      else [])

/-- Scenario A: one node with Role ControlPlane and image "img:v1". -/
def scenarioA (R : RoleNames) : Config :=
  { Nodes := [{ Role := R.ControlPlaneRole, Image := "img:v1", Replicas := none,
                ControlPlane := none }] }

/-- Scenario B: one node with an empty Role and an empty Image. -/
def scenarioB : Config :=
  { Nodes := [{ Role := "", Image := "", Replicas := none, ControlPlane := none }] }

/-- The role `""` is none of the four role constants. -/
def emptyRoleUnrecognized (R : RoleNames) : Prop :=
  roleRecognized R "" = false

instance (R : RoleNames) : Decidable (emptyRoleUnrecognized R) := by
  unfold emptyRoleUnrecognized
  infer_instance

/-! ## Nil dereferences made explicit -/

/-- A pointer dereference: it panics on nil. -/
def deref {α : Type} : Option α → Except String α
  | some a => Except.ok a
  | none => Except.error "invalid memory address or nil pointer dereference"

/-- The method `Node.Validate` (lines 54-127) with every dereference of
`n.Replicas`, `n.ControlPlane` and `n.ControlPlane.NodeLifecycle` explicit, in
the place where the source has it: the result is a panic or the returned error. -/
def Node.validateChecked (R : RoleNames) (n : Node) : Except String (Option (Errors String)) := do
  let errs : List String := []
  let errs := if roleRecognized R n.Role then errs else errs ++ [roleMsg]
  let errs := if n.Image = "" then errs ++ [imageMsg] else errs
  let negative ←
    if n.Replicas.isSome then do
      let r ← deref n.Replicas
      pure (decide (int32 r.val < 0))
    else pure false
  let errs := if negative then errs ++ [replicasMsg] else errs
  let errs ←
    if n.ControlPlane.isSome then do
      let cp ← deref n.ControlPlane
      if cp.NodeLifecycle.isSome then do
        let lc ← deref (← deref n.ControlPlane).NodeLifecycle
        let errs := scanHooks preBootMsg lc.PreBoot errs
        let lc ← deref (← deref n.ControlPlane).NodeLifecycle
        let errs := scanHooks preKubeadmMsg lc.PreKubeadm errs
        let lc ← deref (← deref n.ControlPlane).NodeLifecycle
        let errs := scanHooks postKubeadmMsg lc.PostKubeadm errs
        let lc ← deref (← deref n.ControlPlane).NodeLifecycle
        let errs := scanHooks postSetupMsg lc.PostSetup errs
        pure errs
      else pure errs
    else pure errs
  if errs.length > 0 then pure (some (NewErrors errs)) else pure none

/-- The loop of lines 31-35 over the panicking `Node.validateChecked`. -/
def validateNodesChecked (R : RoleNames) :
    List Node → Nat → List FmtError → Except String (List FmtError)
  | [], _, errs => pure errs
  | n :: rest, i, errs => do
    match ← n.validateChecked R with
    | some err => validateNodesChecked R rest (i + 1) (errs ++ [nodeError i err])
    | none => validateNodesChecked R rest (i + 1) errs

/-- The method `Config.Validate` (lines 27-50) over the panicking node
validation: the result is a panic or the returned error. -/
def Config.validateChecked (R : RoleNames) (c : Config) :
    Except String (Option (Errors FmtError)) := do
  let errs : List FmtError := []
  let errs ← validateNodesChecked R c.Nodes 0 errs
  let errs :=
    if (c.BootStrapControlPlane R).isNone then errs ++ [controlPlaneError R] else errs
  let errs :=
    if (c.ControlPlanes R).length > 1 ∧ (c.ExternalLoadBalancer R).isNone then
      errs ++ [loadBalancerError R]
    else errs
  if errs.length > 0 then pure (some (NewErrors errs)) else pure none

/-- A node with every optional part absent or empty: no Replicas, a ControlPlane
without NodeLifecycle. -/
def bareNode (R : RoleNames) : Node :=
  { Role := R.ControlPlaneRole, Image := "img", Replicas := none,
    ControlPlane := some { NodeLifecycle := none } }

/-- A node whose lifecycle is present, with the groups PreBoot and PostKubeadm
empty and one hook with a nil Command in PreKubeadm and in PostSetup. -/
def nilHooksNode (R : RoleNames) : Node :=
  { Role := R.WorkerRole, Image := "img", Replicas := none,
    ControlPlane := some ⟨some ⟨[], [⟨[]⟩], [], [⟨[]⟩]⟩⟩ }

/-! ## The text of the load-balancer error -/

/-- The text `fmt` gives a format whose verbs are all `%s`, with string
arguments: each `%s` becomes the next argument, every other character is copied. -/
def renderS : List Char → List String → List Char
  | '%' :: 's' :: rest, a :: args => a.toList ++ renderS rest args
  | '%' :: 's' :: rest, [] => "%!s(MISSING)".toList ++ renderS rest []
  | c :: rest, args => c :: renderS rest args
  | [], _ => []

/-- The role arguments of a `fmt.Errorf` call. -/
def FmtError.roleArgs (e : FmtError) : List String :=
  e.args.filterMap (fun a => match a with
    | FmtArg.role r => some r
    | _ => none)

/-- The text of an error whose verbs are all `%s` and whose arguments are roles. -/
def FmtError.textS (e : FmtError) : String :=
  String.mk (renderS e.format.toList e.roleArgs)

/-- The text C13 gives the load-balancer error. -/
def claimedLoadBalancerText : String :=
  "please add a node with role ExternalLoadBalancer because there are multiple ControlPlane nodes"

/-- The role constants with the names the specification uses as their values. -/
def specRoles : RoleNames :=
  { ControlPlaneRole := "ControlPlane"
    WorkerRole := "Worker"
    ExternalEtcdRole := "ExternalEtcd"
    ExternalLoadBalancerRole := "ExternalLoadBalancer" }

/-- Two nodes with Role ControlPlane and the given images, nothing else set. -/
def twoControlPlanes (R : RoleNames) (image1 image2 : String) : Config :=
  { Nodes := [{ Role := R.ControlPlaneRole, Image := image1, Replicas := none,
                ControlPlane := none },
              { Role := R.ControlPlaneRole, Image := image2, Replicas := none,
                ControlPlane := none }] }

/-! ## Validation on a store -/

/-- The memory a call of `Config.Validate` works on: the configuration behind
the receiver `c`, and the variables of the two methods: `errs` of
`Config.Validate`, the loop variable `n`, and `errs` of `Node.Validate`. A call
finds in the variables whatever an earlier call left there. -/
structure Store where
  cfg : Config
  errs : List FmtError
  n : Node
  nodeErrs : List String
deriving DecidableEq

/-- The method `Node.Validate` (lines 54-127) as statements on the store, the
receiver pointing to the loop variable `n`: the store after the call, and the
returned error. -/
def Node.validateStore (R : RoleNames) (s : Store) : Store × Option (Errors String) :=
  let s := { s with nodeErrs := [] }
  let s := if roleRecognized R s.n.Role then s else { s with nodeErrs := s.nodeErrs ++ [roleMsg] }
  let s := if s.n.Image = "" then { s with nodeErrs := s.nodeErrs ++ [imageMsg] } else s
  let s :=
    match s.n.Replicas with
    | some r => if int32 r.val < 0 then { s with nodeErrs := s.nodeErrs ++ [replicasMsg] } else s
    | none => s
  let s :=
    match s.n.ControlPlane with
    | some cp =>
      match cp.NodeLifecycle with
      | some lc =>
        let s := { s with nodeErrs := scanHooks preBootMsg lc.PreBoot s.nodeErrs }
        let s := { s with nodeErrs := scanHooks preKubeadmMsg lc.PreKubeadm s.nodeErrs }
        let s := { s with nodeErrs := scanHooks postKubeadmMsg lc.PostKubeadm s.nodeErrs }
        let s := { s with nodeErrs := scanHooks postSetupMsg lc.PostSetup s.nodeErrs }
        s
      | none => s
    | none => s
  (s, if s.nodeErrs.length > 0 then some (NewErrors s.nodeErrs) else none)

/-- The loop of lines 31-35 on the store: the range clause copies the node into
`n`, `n.Validate()` runs on that copy, and a non-nil result is appended to `errs`. -/
def validateNodesStore (R : RoleNames) : List Node → Nat → Store → Store
  | [], _, s => s
  | node :: rest, i, s =>
    let s := { s with n := node }
    let r := Node.validateStore R s
    match r.2 with
    | some err => validateNodesStore R rest (i + 1) { r.1 with errs := r.1.errs ++ [nodeError i err] }
    | none => validateNodesStore R rest (i + 1) r.1

/-- The method `Config.Validate` (lines 27-50) as statements on the store: the
store after the call, and the returned error. -/
def Config.validateStore (R : RoleNames) (s : Store) : Store × Option (Errors FmtError) :=
  let s := { s with errs := [] }
  let s := validateNodesStore R s.cfg.Nodes 0 s
  let s :=
    if (s.cfg.BootStrapControlPlane R).isNone then
      { s with errs := s.errs ++ [controlPlaneError R] }
    else s
  let s :=
    if (s.cfg.ControlPlanes R).length > 1 ∧ (s.cfg.ExternalLoadBalancer R).isNone then
      { s with errs := s.errs ++ [loadBalancerError R] }
    else s
  (s, if s.errs.length > 0 then some (NewErrors s.errs) else none)

/-- A store as a call may find it: the configuration of scenario B, and
variables still holding what a validation of another configuration left. -/
def usedStore : Store :=
  { cfg := scenarioB
    errs := [loadBalancerError kindRoles, controlPlaneError kindRoles]
    n := worstNode
    nodeErrs := [replicasMsg] }

/-! ## The create-cluster flow -/

/-- The flags of `create cluster` (createcluster.go lines 32-38); `Wait` is a
`time.Duration`, an integer. -/
structure flagpole where
  Name : String
  Config : String
  ImageName : String
  Retain : Bool
  Wait : Int
deriving DecidableEq

/-- An error `runE` returns: the format of its `fmt.Errorf` call and, when the
format has the verb `%v`, the text of the error passed for it. -/
structure RunError where
  format : String
  cause : Option String
deriving DecidableEq, Repr

/-- How a call of `runE` ends: with a panic, by returning nil, or by returning an
error. -/
inductive Exit where
  | panic
  | ok
  | error (e : RunError)
deriving DecidableEq, Repr

/-- What a call of `runE` did: the configuration `ctx.Create` was called with,
when it was called, and how the call ended. -/
structure RunResult where
  created : Option Config
  exit : Exit
deriving DecidableEq

/-- The steps of `runE` whose code is outside the sources at hand, taken as
parameters: `encoding.Load` (an error or the configuration),
`len(cfg.AllReplicas())`, the assignment
`cfg.BootStrapControlPlane().Image = image` (the configuration after it, or
nothing when the pointer is nil and the assignment panics), and
`cluster.NewContext(name).Create(cfg, retain, wait)` (nil or an error). -/
structure Collaborators where
  Load : String → Except String Config
  AllReplicas : Config → Nat
  setBootStrapImage : Config → String → Option Config
  Create : String → Config → Bool → Int → Option String

/-- The error of lines 74 and 92. -/
def abortError : RunError := ⟨"aborting due to invalid configuration", none⟩

/-- The error of line 82. -/
def multiNodeError : RunError :=
  ⟨"multi node support is still a work in progress, currently only single node cluster are supported",
    none⟩

/-- Lines 95-99 of `runE`: the call of `ctx.Create` and the return. -/
def createStep (env : Collaborators) (flags : flagpole) (cfg : Config) : RunResult :=
  match env.Create flags.Name cfg flags.Retain flags.Wait with
  | some err => ⟨some cfg, Exit.error ⟨"failed to create cluster: %v", some err⟩⟩
  | none => ⟨some cfg, Exit.ok⟩

/-- The function `runE` (createcluster.go lines 59-100); logging is left out. -/
def runE (R : RoleNames) (env : Collaborators) (flags : flagpole) : RunResult :=
  match env.Load flags.Config with
  | Except.error err => ⟨none, Exit.error ⟨"error loading config: %v", some err⟩⟩
  | Except.ok cfg =>
    match cfg.Validate R with
    | some _ => ⟨none, Exit.error abortError⟩
    | none =>
      if env.AllReplicas cfg > 1 then ⟨none, Exit.error multiNodeError⟩
      else if flags.ImageName ≠ "" then
        match env.setBootStrapImage cfg flags.ImageName with
        | none => ⟨none, Exit.panic⟩
        | some cfg2 =>
          match cfg2.Validate R with
          | some _ => ⟨none, Exit.error abortError⟩
          | none => createStep env flags cfg2
      else createStep env flags cfg

/-- Modelled from the spec: the assignment
`cfg.BootStrapControlPlane().Image = image` on the nodes (helpers.go is not part
of the sources at hand): the Image of the first node whose Role is ControlPlane
is replaced; nothing when there is no such node. -/
def setFirstImage (R : RoleNames) (image : String) : List Node → Option (List Node)
  | [] => none
  | n :: rest =>
    if n.Role == R.ControlPlaneRole then some ({ n with Image := image } :: rest)
    else (setFirstImage R image rest).map (fun l => n :: l)

/-- Modelled from the spec: the assignment
`cfg.BootStrapControlPlane().Image = image` of `runE` line 88: the configuration
with the Image of the bootstrap control-plane node replaced, nothing when that
node is nil. -/
def Config.setBootStrapImage (R : RoleNames) (c : Config) (image : String) : Option Config :=
  (setFirstImage R image c.Nodes).map (fun l => ⟨l⟩)

/-- Collaborators for evaluating `runE`: `Load` gives the configuration `cfg`,
one replica a node, the image override as the specification describes it, and a
`Create` that succeeds. -/
def sampleEnv (R : RoleNames) (cfg : Config) : Collaborators :=
  { Load := fun _ => Except.ok cfg
    AllReplicas := fun c => c.Nodes.length
    setBootStrapImage := fun c image => c.setBootStrapImage R image
    Create := fun _ _ _ _ => none }

/-- Collaborators whose image override leaves an invalid configuration behind:
it empties the node list. -/
def brokenOverrideEnv (cfg : Config) : Collaborators :=
  { Load := fun _ => Except.ok cfg
    AllReplicas := fun c => c.Nodes.length
    setBootStrapImage := fun _ _ => some ⟨[]⟩
    Create := fun _ _ _ _ => none }

/-- Flags with the given image override and nothing else set. -/
def sampleFlags (image : String) : flagpole :=
  { Name := "1", Config := "", ImageName := image, Retain := false, Wait := 0 }

/-- A worker node and a ControlPlane node, for a permutation. -/
def workerThenControlPlane (R : RoleNames) : Config :=
  { Nodes := [{ Role := R.WorkerRole, Image := "", Replicas := none, ControlPlane := none },
              { Role := R.ControlPlaneRole, Image := "img", Replicas := none,
                ControlPlane := none }] }

/-- The nodes of `workerThenControlPlane` in the other order. -/
def controlPlaneThenWorker (R : RoleNames) : Config :=
  { Nodes := [{ Role := R.ControlPlaneRole, Image := "img", Replicas := none,
                ControlPlane := none },
              { Role := R.WorkerRole, Image := "", Replicas := none, ControlPlane := none }] }

/-! ## Errors up to the node index -/

/-- The error without the node index among its arguments: a wrapped node error
keeps its format and the errors of the node, the topology errors are unchanged. -/
def FmtError.eraseIndex (e : FmtError) : FmtError :=
  { e with args := e.args.filter (fun a => match a with
      | FmtArg.int _ => false
      | _ => true) }

/-- The topology errors of a configuration, in the order of the two checks. -/
def Config.topologyErrs (R : RoleNames) (c : Config) : List FmtError :=
  (if c.controlPlaneCount R = 0 then [controlPlaneError R] else []) ++
    (if 1 < c.controlPlaneCount R ∧ c.loadBalancerCount R = 0 then [loadBalancerError R]
      else [])

/-- A node without image, a node without role, a ControlPlane node. -/
def imageRoleControlPlane (R : RoleNames) : Config :=
  { Nodes := [{ Role := R.WorkerRole, Image := "", Replicas := none, ControlPlane := none },
              { Role := "", Image := "img", Replicas := none, ControlPlane := none },
              { Role := R.ControlPlaneRole, Image := "img", Replicas := none,
                ControlPlane := none }] }

/-- The nodes of `imageRoleControlPlane` with the first two exchanged. -/
def roleImageControlPlane (R : RoleNames) : Config :=
  { Nodes := [{ Role := "", Image := "img", Replicas := none, ControlPlane := none },
              { Role := R.WorkerRole, Image := "", Replicas := none, ControlPlane := none },
              { Role := R.ControlPlaneRole, Image := "img", Replicas := none,
                ControlPlane := none }] }

/-! ## Lemmas on Node.Validate -/

theorem int32_val (r : GoInt32) : int32 r.val = r.val := by
  have h := r.property
  unfold int32
  omega

theorem hasEmptyCommand_iff (hooks : List LifecycleHook) :
    hasEmptyCommand hooks = true ↔ ∃ h ∈ hooks, h.Command = [] := by
  simp [hasEmptyCommand, List.isEmpty_iff]

theorem hasEmptyCommand_false_iff (hooks : List LifecycleHook) :
    hasEmptyCommand hooks = false ↔ ∀ h ∈ hooks, h.Command ≠ [] := by
  simp [hasEmptyCommand, List.isEmpty_iff]

theorem scanHooks_eq (msg : String) (hooks : List LifecycleHook) (errs : List String) :
    scanHooks msg hooks errs = errs ++ (if hasEmptyCommand hooks then [msg] else []) := by
  induction hooks with
  | nil => simp [scanHooks, hasEmptyCommand]
  | cons hook rest ih =>
    by_cases h : hook.Command.length = 0
    · have h2 : hook.Command = [] := List.length_eq_zero.mp h
      simp [scanHooks, hasEmptyCommand, h2]
    · have h2 : hook.Command ≠ [] := fun e => h (by simp [e])
      have h3 : hook.Command.isEmpty = false := by simpa [List.isEmpty_iff] using h2
      simp only [scanHooks, h, if_false, ih]
      simp [hasEmptyCommand, h3]

theorem groupErrs_eq (msg : String) (hooks : List LifecycleHook) :
    groupErrs msg hooks = if hasEmptyCommand hooks then [msg] else [] := by
  simp [groupErrs, scanHooks_eq]

theorem node_validateErrs_eq_expected (R : RoleNames) (n : Node) :
    n.validateErrs R = n.expectedErrs R := by
  rcases n with ⟨role, image, rep, cp⟩
  unfold Node.validateErrs Node.expectedErrs Node.checks Node.groupFails Node.lifecycle
    Node.replicasNegative
  simp only [scanHooks_eq, int32_val]
  cases h1 : roleRecognized R role <;> by_cases h2 : image = "" <;>
    rcases rep with _ | r <;> rcases cp with _ | ⟨_ | lc⟩ <;>
    simp [h1, h2] <;> split_ifs <;> simp_all

/-- The errors of seven checks, given which of them fail. -/
theorem checks_filter (b1 b2 b3 b4 b5 b6 b7 : Bool) (m1 m2 m3 m4 m5 m6 m7 : String) :
    (([(b1, m1), (b2, m2), (b3, m3), (b4, m4), (b5, m5), (b6, m6), (b7, m7)].filter
      (fun p => p.1)).map (fun p => p.2)) =
      (if b1 then [m1] else []) ++ (if b2 then [m2] else []) ++ (if b3 then [m3] else []) ++
      (if b4 then [m4] else []) ++ (if b5 then [m5] else []) ++ (if b6 then [m6] else []) ++
      (if b7 then [m7] else []) := by
  cases b1 <;> cases b2 <;> cases b3 <;> cases b4 <;> cases b5 <;> cases b6 <;> cases b7 <;> rfl

theorem expectedErrs_eq (R : RoleNames) (n : Node) :
    n.expectedErrs R =
      (if !roleRecognized R n.Role then [roleMsg] else []) ++
      (if n.Image == "" then [imageMsg] else []) ++
      (if n.replicasNegative then [replicasMsg] else []) ++
      (if n.groupFails NodeLifecycle.PreBoot then [preBootMsg] else []) ++
      (if n.groupFails NodeLifecycle.PreKubeadm then [preKubeadmMsg] else []) ++
      (if n.groupFails NodeLifecycle.PostKubeadm then [postKubeadmMsg] else []) ++
      (if n.groupFails NodeLifecycle.PostSetup then [postSetupMsg] else []) := by
  unfold Node.expectedErrs Node.checks
  exact checks_filter _ _ _ _ _ _ _ _ _ _ _ _ _ _

theorem node_validate_eq_none_iff (R : RoleNames) (n : Node) :
    n.Validate R = none ↔ n.validateErrs R = [] := by
  unfold Node.Validate
  cases h : n.validateErrs R <;> simp

theorem node_validate_eq_some_iff (R : RoleNames) (n : Node) (e : Errors String) :
    n.Validate R = some e ↔ n.validateErrs R ≠ [] ∧ e = ⟨n.validateErrs R⟩ := by
  unfold Node.Validate NewErrors
  cases h : n.validateErrs R <;> simp [eq_comm]

theorem node_validate_eq (R : RoleNames) (n : Node) :
    n.Validate R = if n.validateErrs R = [] then none else some ⟨n.validateErrs R⟩ := by
  unfold Node.Validate NewErrors
  cases h : n.validateErrs R <;> simp

theorem roleRecognized_iff (R : RoleNames) (role : String) :
    roleRecognized R role = true ↔
      role = R.ControlPlaneRole ∨ role = R.WorkerRole ∨ role = R.ExternalEtcdRole ∨
        role = R.ExternalLoadBalancerRole := by
  simp [roleRecognized, or_assoc]

theorem replicasNegative_iff (n : Node) :
    n.replicasNegative = true ↔ ∃ r, n.Replicas = some r ∧ r.val < 0 := by
  unfold Node.replicasNegative
  cases h : n.Replicas <;> simp

theorem groupFails_iff (n : Node) (group : NodeLifecycle → List LifecycleHook) :
    n.groupFails group = true ↔
      ∃ cp lc, n.ControlPlane = some cp ∧ cp.NodeLifecycle = some lc ∧
        ∃ h ∈ group lc, h.Command = [] := by
  unfold Node.groupFails Node.lifecycle
  rcases hcp : n.ControlPlane with _ | cp
  · simp
  · rcases hlc : cp.NodeLifecycle with _ | lc
    · simp [hlc]
    · simp [hlc, hasEmptyCommand_iff]

theorem expectedErrs_nil_iff (R : RoleNames) (n : Node) :
    n.expectedErrs R = [] ↔
      roleRecognized R n.Role = true ∧ n.Image ≠ "" ∧ n.replicasNegative = false ∧
        n.groupFails NodeLifecycle.PreBoot = false ∧
        n.groupFails NodeLifecycle.PreKubeadm = false ∧
        n.groupFails NodeLifecycle.PostKubeadm = false ∧
        n.groupFails NodeLifecycle.PostSetup = false := by
  rw [expectedErrs_eq]
  cases roleRecognized R n.Role <;> by_cases h2 : n.Image = "" <;>
    cases n.replicasNegative <;> cases n.groupFails NodeLifecycle.PreBoot <;>
    cases n.groupFails NodeLifecycle.PreKubeadm <;>
    cases n.groupFails NodeLifecycle.PostKubeadm <;>
    cases n.groupFails NodeLifecycle.PostSetup <;> simp [h2]

theorem groupFails_false_iff (n : Node) (group : NodeLifecycle → List LifecycleHook) :
    n.groupFails group = false ↔
      ∀ cp lc, n.ControlPlane = some cp → cp.NodeLifecycle = some lc →
        ∀ h ∈ group lc, h.Command ≠ [] := by
  rw [← Bool.not_eq_true, groupFails_iff]
  constructor
  · intro h cp lc hcp hlc k hk hk0
    exact h ⟨cp, lc, hcp, hlc, k, hk, hk0⟩
  · rintro h ⟨cp, lc, hcp, hlc, k, hk, hk0⟩
    exact h cp lc hcp hlc k hk hk0

/-- C2: `Node.Validate` returns nil exactly when the Role is one of the four role
constants, the Image is not empty, Replicas is absent or at least 0, and, when
ControlPlane and its NodeLifecycle are both present, every hook of each of the
four groups has a non-empty Command. -/
theorem node_validate_nil_iff (R : RoleNames) (n : Node) :
    n.Validate R = none ↔
      (n.Role = R.ControlPlaneRole ∨ n.Role = R.WorkerRole ∨ n.Role = R.ExternalEtcdRole ∨
        n.Role = R.ExternalLoadBalancerRole) ∧
      n.Image ≠ "" ∧
      (n.Replicas = none ∨ ∃ r, n.Replicas = some r ∧ 0 ≤ r.val) ∧
      (∀ cp lc, n.ControlPlane = some cp → cp.NodeLifecycle = some lc →
        (∀ h ∈ lc.PreBoot, h.Command ≠ []) ∧ (∀ h ∈ lc.PreKubeadm, h.Command ≠ []) ∧
        (∀ h ∈ lc.PostKubeadm, h.Command ≠ []) ∧ (∀ h ∈ lc.PostSetup, h.Command ≠ [])) := by
  rw [node_validate_eq_none_iff, node_validateErrs_eq_expected, expectedErrs_nil_iff,
    roleRecognized_iff, groupFails_false_iff, groupFails_false_iff, groupFails_false_iff,
    groupFails_false_iff]
  have hrep : n.replicasNegative = false ↔
      (n.Replicas = none ∨ ∃ r, n.Replicas = some r ∧ 0 ≤ r.val) := by
    unfold Node.replicasNegative
    cases n.Replicas <;> simp
  rw [hrep]
  constructor
  · rintro ⟨h1, h2, h3, h4, h5, h6, h7⟩
    exact ⟨h1, h2, h3, fun cp lc hcp hlc =>
      ⟨h4 cp lc hcp hlc, h5 cp lc hcp hlc, h6 cp lc hcp hlc, h7 cp lc hcp hlc⟩⟩
  · rintro ⟨h1, h2, h3, h4⟩
    exact ⟨h1, h2, h3, fun cp lc hcp hlc => (h4 cp lc hcp hlc).1,
      fun cp lc hcp hlc => (h4 cp lc hcp hlc).2.1,
      fun cp lc hcp hlc => (h4 cp lc hcp hlc).2.2.1,
      fun cp lc hcp hlc => (h4 cp lc hcp hlc).2.2.2⟩

/-- The seven-check error list has at most seven entries, at most four of them
hook errors. -/
theorem checks_bounds (b1 b2 b3 b4 b5 b6 b7 : Bool) :
    let errs := ([(b1, roleMsg), (b2, imageMsg), (b3, replicasMsg), (b4, preBootMsg),
      (b5, preKubeadmMsg), (b6, postKubeadmMsg), (b7, postSetupMsg)].filter
        (fun p => p.1)).map (fun p => p.2)
    errs.length ≤ 7 ∧ (errs.filter (fun e => decide (e ∈ hookMsgs))).length ≤ 4 := by
  cases b1 <;> cases b2 <;> cases b3 <;> cases b4 <;> cases b5 <;> cases b6 <;> cases b7 <;>
    decide

/-- C4: the errors of `Node.Validate` are the errors of the failing ones among
the seven checks (role, image, replicas, PreBoot, PreKubeadm, PostKubeadm,
PostSetup), in that order, every check being evaluated whatever the earlier ones
gave; a node failing all seven yields exactly the seven errors, and no node
yields more than seven errors or more than four hook errors. -/
theorem node_errors_are_failing_checks (R : RoleNames) (n : Node) :
    n.validateErrs R = ((n.checks R).filter (fun p => p.1)).map (fun p => p.2) ∧
    (n.checks R).map (fun p => p.2) =
      [roleMsg, imageMsg, replicasMsg, preBootMsg, preKubeadmMsg, postKubeadmMsg,
        postSetupMsg] ∧
    ((∀ p ∈ n.checks R, p.1 = true) →
      n.validateErrs R = [roleMsg, imageMsg, replicasMsg, preBootMsg, preKubeadmMsg,
        postKubeadmMsg, postSetupMsg]) ∧
    (worstNode.validateErrs kindRoles).length = 7 ∧
    worstNode.Validate kindRoles = some ⟨[roleMsg, imageMsg, replicasMsg, preBootMsg,
      preKubeadmMsg, postKubeadmMsg, postSetupMsg]⟩ ∧
    (n.validateErrs R).length ≤ 7 ∧
    ((n.validateErrs R).filter (fun e => decide (e ∈ hookMsgs))).length ≤ 4 ∧
    n.Validate R = (if n.validateErrs R = [] then none else some ⟨n.validateErrs R⟩) := by
  have hb := checks_bounds (!roleRecognized R n.Role) (n.Image == "") n.replicasNegative
    (n.groupFails NodeLifecycle.PreBoot) (n.groupFails NodeLifecycle.PreKubeadm)
    (n.groupFails NodeLifecycle.PostKubeadm) (n.groupFails NodeLifecycle.PostSetup)
  have he : n.validateErrs R = ((n.checks R).filter (fun p => p.1)).map (fun p => p.2) :=
    node_validateErrs_eq_expected R n
  refine ⟨he, rfl, ?_, by decide, by decide, ?_, ?_, node_validate_eq R n⟩
  · intro hall
    rw [he]
    simp only [Node.checks, List.mem_cons, List.mem_singleton, forall_eq_or_imp, forall_eq,
      List.not_mem_nil, false_imp_iff, implies_true, and_true] at hall
    obtain ⟨h1, h2, h3, h4, h5, h6, h7⟩ := hall
    simp only [Node.checks, h1, h2, h3, h4, h5, h6, h7]
    rfl
  · rw [he]
    exact hb.1
  · rw [he]
    exact hb.2

/-- How often the role, PreBoot and PreKubeadm texts occur among the errors of
seven checks, and when the replicas text occurs. -/
theorem checks_count (b1 b2 b3 b4 b5 b6 b7 : Bool) :
    let errs := ([(b1, roleMsg), (b2, imageMsg), (b3, replicasMsg), (b4, preBootMsg),
      (b5, preKubeadmMsg), (b6, postKubeadmMsg), (b7, postSetupMsg)].filter
        (fun p => p.1)).map (fun p => p.2)
    errs.count roleMsg = (if b1 then 1 else 0) ∧
    errs.count preBootMsg = (if b4 then 1 else 0) ∧
    errs.count preKubeadmMsg = (if b5 then 1 else 0) ∧
    (replicasMsg ∈ errs ↔ b3 = true) := by
  cases b1 <;> cases b2 <;> cases b3 <;> cases b4 <;> cases b5 <;> cases b6 <;> cases b7 <;>
    decide

theorem node_checks_count (R : RoleNames) (n : Node) :
    (n.validateErrs R).count roleMsg = (if !roleRecognized R n.Role then 1 else 0) ∧
    (n.validateErrs R).count preBootMsg =
      (if n.groupFails NodeLifecycle.PreBoot then 1 else 0) ∧
    (n.validateErrs R).count preKubeadmMsg =
      (if n.groupFails NodeLifecycle.PreKubeadm then 1 else 0) ∧
    (replicasMsg ∈ n.validateErrs R ↔ n.replicasNegative = true) := by
  rw [node_validateErrs_eq_expected]
  exact checks_count (!roleRecognized R n.Role) (n.Image == "") n.replicasNegative
    (n.groupFails NodeLifecycle.PreBoot) (n.groupFails NodeLifecycle.PreKubeadm)
    (n.groupFails NodeLifecycle.PostKubeadm) (n.groupFails NodeLifecycle.PostSetup)

theorem groupFails_of_lifecycle (n : Node) (cp : ControlPlane) (lc : NodeLifecycle)
    (hcp : n.ControlPlane = some cp) (hlc : cp.NodeLifecycle = some lc)
    (group : NodeLifecycle → List LifecycleHook) :
    n.groupFails group = hasEmptyCommand (group lc) := by
  simp [Node.groupFails, Node.lifecycle, hcp, hlc]

theorem validateErrs_of_lifecycle (R : RoleNames) (n : Node) (cp : ControlPlane)
    (lc : NodeLifecycle) (hcp : n.ControlPlane = some cp) (hlc : cp.NodeLifecycle = some lc) :
    n.validateErrs R =
      n.fieldErrs R ++ groupErrs preBootMsg lc.PreBoot ++ groupErrs preKubeadmMsg lc.PreKubeadm ++
        groupErrs postKubeadmMsg lc.PostKubeadm ++ groupErrs postSetupMsg lc.PostSetup := by
  rw [node_validateErrs_eq_expected, expectedErrs_eq]
  simp only [groupFails_of_lifecycle n cp lc hcp hlc, groupErrs_eq, Node.fieldErrs]
  cases roleRecognized R n.Role <;> by_cases h2 : n.Image = "" <;> simp [h2]

/-- C5: when the node lifecycle is present, the errors of `Node.Validate` are the
role, image and replicas errors followed by what each of the four hook loops
adds, and a hook loop adds exactly one error when its group has a hook with an
empty Command and nothing otherwise, however many such hooks the group has. -/
theorem hook_group_single_error (R : RoleNames) (n : Node) (cp : ControlPlane)
    (lc : NodeLifecycle) (hcp : n.ControlPlane = some cp) (hlc : cp.NodeLifecycle = some lc) :
    n.validateErrs R =
      n.fieldErrs R ++ groupErrs preBootMsg lc.PreBoot ++ groupErrs preKubeadmMsg lc.PreKubeadm ++
        groupErrs postKubeadmMsg lc.PostKubeadm ++ groupErrs postSetupMsg lc.PostSetup ∧
    (∀ msg hooks errs, scanHooks msg hooks errs = errs ++ groupErrs msg hooks) ∧
    (∀ msg hooks, groupErrs msg hooks = if ∃ h ∈ hooks, h.Command = [] then [msg] else []) ∧
    (∀ msg hooks, (groupErrs msg hooks).length = if ∃ h ∈ hooks, h.Command = [] then 1 else 0) ∧
    (n.validateErrs R).count preBootMsg = (if ∃ h ∈ lc.PreBoot, h.Command = [] then 1 else 0) ∧
    (n.validateErrs R).count preKubeadmMsg =
      (if ∃ h ∈ lc.PreKubeadm, h.Command = [] then 1 else 0) ∧
    (∀ msg, groupErrs msg [⟨["a"]⟩, ⟨[]⟩, ⟨["b"]⟩] = [msg]) ∧
    (∀ msg, groupErrs msg [⟨[]⟩, ⟨[]⟩] = [msg]) := by
  have hg : ∀ msg hooks,
      groupErrs msg hooks = if ∃ h ∈ hooks, h.Command = [] then [msg] else [] := by
    intro msg hooks
    rw [groupErrs_eq]
    by_cases h : hasEmptyCommand hooks = true
    · rw [if_pos h, if_pos ((hasEmptyCommand_iff hooks).mp h)]
    · rw [if_neg h, if_neg (fun h2 => h ((hasEmptyCommand_iff hooks).mpr h2))]
  have hc := node_checks_count R n
  refine ⟨validateErrs_of_lifecycle R n cp lc hcp hlc, ?_, hg, ?_, ?_, ?_, ?_, ?_⟩
  · intro msg hooks errs
    rw [scanHooks_eq, groupErrs_eq]
  · intro msg hooks
    rw [hg]
    split_ifs <;> rfl
  · rw [hc.2.1, groupFails_of_lifecycle n cp lc hcp hlc]
    by_cases h : hasEmptyCommand lc.PreBoot = true
    · rw [if_pos h, if_pos ((hasEmptyCommand_iff _).mp h)]
    · rw [if_neg h, if_neg (fun h2 => h ((hasEmptyCommand_iff _).mpr h2))]
  · rw [hc.2.2.1, groupFails_of_lifecycle n cp lc hcp hlc]
    by_cases h : hasEmptyCommand lc.PreKubeadm = true
    · rw [if_pos h, if_pos ((hasEmptyCommand_iff _).mp h)]
    · rw [if_neg h, if_neg (fun h2 => h ((hasEmptyCommand_iff _).mpr h2))]
  · intro msg
    rfl
  · intro msg
    rfl

/-- The statement of C5 at `worstNode`, whose PreKubeadm group has the commands
`[["a"], [], ["b"]]` and whose PostKubeadm group has two empty commands. -/
theorem hook_group_single_error_witness :
    worstNode.ControlPlane = some ⟨some ⟨[⟨[]⟩], [⟨["a"]⟩, ⟨[]⟩, ⟨["b"]⟩], [⟨[]⟩, ⟨[]⟩],
      [⟨["ls", "-l"]⟩, ⟨[]⟩]⟩⟩ ∧
    (worstNode.validateErrs kindRoles).count preKubeadmMsg =
      (if ∃ h ∈ [(⟨["a"]⟩ : LifecycleHook), ⟨[]⟩, ⟨["b"]⟩], h.Command = [] then 1 else 0) :=
  ⟨rfl, (hook_group_single_error kindRoles worstNode
    ⟨some ⟨[⟨[]⟩], [⟨["a"]⟩, ⟨[]⟩, ⟨["b"]⟩], [⟨[]⟩, ⟨[]⟩], [⟨["ls", "-l"]⟩, ⟨[]⟩]⟩⟩
    ⟨[⟨[]⟩], [⟨["a"]⟩, ⟨[]⟩, ⟨["b"]⟩], [⟨[]⟩, ⟨[]⟩], [⟨["ls", "-l"]⟩, ⟨[]⟩]⟩ rfl rfl).2.2.2.2.2.1⟩

/-- C7: the role error occurs exactly once among the errors of `Node.Validate`
when the Role is none of the four role constants, whatever the other fields are,
and not at all when it is one of them. -/
theorem role_error_exactly_once (R : RoleNames) (n : Node) :
    (n.validateErrs R).count roleMsg =
      (if n.Role = R.ControlPlaneRole ∨ n.Role = R.WorkerRole ∨ n.Role = R.ExternalEtcdRole ∨
        n.Role = R.ExternalLoadBalancerRole then 0 else 1) ∧
    (∀ image replicas cp, emptyRoleUnrecognized R →
      (Node.validateErrs R ⟨"", image, replicas, cp⟩).count roleMsg = 1) ∧
    (∀ image replicas cp,
      (Node.validateErrs kindRoles ⟨"", image, replicas, cp⟩).count roleMsg = 1) := by
  have key : ∀ (R : RoleNames) (n : Node), (n.validateErrs R).count roleMsg =
      (if n.Role = R.ControlPlaneRole ∨ n.Role = R.WorkerRole ∨ n.Role = R.ExternalEtcdRole ∨
        n.Role = R.ExternalLoadBalancerRole then 0 else 1) := by
    intro R n
    rw [(node_checks_count R n).1]
    by_cases h : roleRecognized R n.Role = true
    · rw [if_pos ((roleRecognized_iff R n.Role).mp h)]
      simp [h]
    · rw [if_neg (fun h2 => h ((roleRecognized_iff R n.Role).mpr h2))]
      simp [h]
  refine ⟨key R n, ?_, ?_⟩
  · intro image replicas cp hR
    rw [(node_checks_count R _).1]
    simp [show roleRecognized R "" = false from hR]
  · intro image replicas cp
    rw [(node_checks_count kindRoles _).1]
    rfl

/-- C8: the replicas error is among the errors of `Node.Validate` exactly when
Replicas is present and negative as an int32: it is reported for every value from
-1 down to the least int32, and not for 0, a positive value or an absent
Replicas. -/
theorem replicas_error_iff_negative (R : RoleNames) (n : Node) :
    ((∃ e, n.Validate R = some e ∧ replicasMsg ∈ e.errors) ↔
      ∃ r, n.Replicas = some r ∧ r.val < 0) ∧
    (replicasMsg ∈ n.validateErrs R ↔ ∃ r, n.Replicas = some r ∧ int32 r.val < 0) ∧
    (replicasMsg ∈ n.validateErrs R ↔ ∃ r, n.Replicas = some r ∧ r.val < 0) ∧
    (n.Replicas = none → replicasMsg ∉ n.validateErrs R) ∧
    (∀ r, n.Replicas = some r → 0 ≤ r.val → replicasMsg ∉ n.validateErrs R) ∧
    (∀ r, n.Replicas = some r → r.val ≤ -1 → replicasMsg ∈ n.validateErrs R) ∧
    (∀ role image cp, replicasMsg ∈
      Node.validateErrs R ⟨role, image, some ⟨-2147483648, by decide⟩, cp⟩) ∧
    (∀ role image cp, replicasMsg ∉
      Node.validateErrs R ⟨role, image, some ⟨0, by decide⟩, cp⟩) ∧
    (∀ role image cp, replicasMsg ∉
      Node.validateErrs R ⟨role, image, some ⟨2147483647, by decide⟩, cp⟩) := by
  have key : ∀ m : Node,
      (replicasMsg ∈ m.validateErrs R ↔ ∃ r, m.Replicas = some r ∧ r.val < 0) := by
    intro m
    rw [(node_checks_count R m).2.2.2, replicasNegative_iff]
  refine ⟨?_, ?_, key n, ?_, ?_, ?_, ?_, ?_, ?_⟩
  · rw [← key n, node_validate_eq]
    constructor
    · rintro ⟨e, he, hmem⟩
      split_ifs at he with h0
      cases he
      exact hmem
    · intro hmem
      exact ⟨⟨n.validateErrs R⟩, by rw [if_neg (List.ne_nil_of_mem hmem)], hmem⟩
  · rw [key n]
    simp only [int32_val]
  · intro h
    rw [key n]
    simp [h]
  · intro r hr h0
    rw [key n]
    rintro ⟨r2, hr2, hneg⟩
    rw [hr] at hr2
    cases hr2
    omega
  · intro r hr h0
    rw [key n]
    exact ⟨r, hr, by omega⟩
  · intro role image cp
    rw [key]
    exact ⟨_, rfl, by decide⟩
  · intro role image cp
    rw [key]
    rintro ⟨r2, hr2, hneg⟩
    cases hr2
    exact absurd hneg (by decide)
  · intro role image cp
    rw [key]
    rintro ⟨r2, hr2, hneg⟩
    cases hr2
    exact absurd hneg (by decide)

/-! ## Lemmas on Config.Validate -/

theorem validateNodes_eq (R : RoleNames) (nodes : List Node) (i : Nat) (errs : List FmtError) :
    validateNodes R nodes i errs =
      errs ++ (nodes.enumFrom i).filterMap (fun p => (p.2.Validate R).map (nodeError p.1)) := by
  induction nodes generalizing i errs with
  | nil => simp [validateNodes]
  | cons n rest ih =>
    cases h : n.Validate R with
    | none => simp [validateNodes, h, ih, List.enumFrom_cons, List.filterMap_cons]
    | some err => simp [validateNodes, h, ih, List.enumFrom_cons, List.filterMap_cons]

theorem bootStrap_isNone_iff (R : RoleNames) (c : Config) :
    (c.BootStrapControlPlane R).isNone = true ↔ c.controlPlaneCount R = 0 := by
  simp [Config.BootStrapControlPlane, Config.controlPlaneCount, List.countP_eq_zero]

theorem controlPlanes_length (R : RoleNames) (c : Config) :
    (c.ControlPlanes R).length = c.controlPlaneCount R := by
  simp [Config.ControlPlanes, Config.controlPlaneCount, List.countP_eq_length_filter]

theorem loadBalancer_isNone_iff (R : RoleNames) (c : Config) :
    (c.ExternalLoadBalancer R).isNone = true ↔ c.loadBalancerCount R = 0 := by
  simp [Config.ExternalLoadBalancer, Config.loadBalancerCount, List.countP_eq_zero]

theorem config_validateErrs_eq_expected (R : RoleNames) (c : Config) :
    c.validateErrs R = c.expectedErrs R := by
  unfold Config.validateErrs Config.expectedErrs expectedNodeErrors
  simp only [validateNodes_eq, List.nil_append, controlPlanes_length, bootStrap_isNone_iff,
    loadBalancer_isNone_iff, List.enum]
  split_ifs <;> simp

theorem config_validate_eq (R : RoleNames) (c : Config) :
    c.Validate R = if c.validateErrs R = [] then none else some ⟨c.validateErrs R⟩ := by
  unfold Config.Validate NewErrors
  cases h : c.validateErrs R <;> simp

theorem controlPlaneCount_eq_zero_iff (R : RoleNames) (c : Config) :
    c.controlPlaneCount R = 0 ↔ ¬ ∃ n ∈ c.Nodes, n.Role = R.ControlPlaneRole := by
  simp [Config.controlPlaneCount, List.countP_eq_zero]

theorem loadBalancerCount_eq_zero_iff (R : RoleNames) (c : Config) :
    c.loadBalancerCount R = 0 ↔ ¬ ∃ n ∈ c.Nodes, n.Role = R.ExternalLoadBalancerRole := by
  simp [Config.loadBalancerCount, List.countP_eq_zero]

theorem expectedNodeErrors_from_nil_iff (R : RoleNames) (nodes : List Node) (i : Nat) :
    (nodes.enumFrom i).filterMap (fun p => (p.2.Validate R).map (nodeError p.1)) = [] ↔
      ∀ n ∈ nodes, n.Validate R = none := by
  induction nodes generalizing i with
  | nil => simp
  | cons n rest ih =>
    cases h : n.Validate R with
    | none => simp [List.enumFrom_cons, List.filterMap_cons, h, ih]
    | some err => simp [List.enumFrom_cons, List.filterMap_cons, h]

theorem expectedNodeErrors_nil_iff (R : RoleNames) (nodes : List Node) :
    expectedNodeErrors R nodes = [] ↔ ∀ n ∈ nodes, n.Validate R = none :=
  expectedNodeErrors_from_nil_iff R nodes 0

theorem nodeError_mem_expected (R : RoleNames) (nodes : List Node) (i : Nat)
    (err : Errors String) :
    nodeError i err ∈ expectedNodeErrors R nodes ↔
      ∃ n, nodes[i]? = some n ∧ n.Validate R = some err := by
  unfold expectedNodeErrors
  simp only [List.mem_filterMap, Option.map_eq_some', Prod.exists, List.mk_mem_enum_iff_getElem?]
  constructor
  · rintro ⟨j, n, hj, e, he, heq⟩
    simp only [nodeError, Errorf, FmtError.mk.injEq, List.cons.injEq, FmtArg.int.injEq,
      FmtArg.err.injEq, and_true, true_and] at heq
    obtain ⟨rfl, rfl⟩ := heq
    exact ⟨n, hj, he⟩
  · rintro ⟨n, hn, he⟩
    exact ⟨i, n, hn, err, he, rfl⟩

theorem loadBalancerError_not_mem_expectedNodeErrors (R : RoleNames) (nodes : List Node) :
    loadBalancerError R ∉ expectedNodeErrors R nodes := by
  unfold expectedNodeErrors
  simp only [List.mem_filterMap, Option.map_eq_some', Prod.exists, not_exists, not_and]
  intro j n _ e _ heq
  have hf : nodeFormat = loadBalancerFormat := congrArg FmtError.format heq
  exact absurd hf (by decide)

theorem loadBalancerError_ne_controlPlaneError (R : RoleNames) :
    loadBalancerError R ≠ controlPlaneError R := by
  intro heq
  have hf : loadBalancerFormat = controlPlaneFormat := congrArg FmtError.format heq
  exact absurd hf (by decide)

theorem config_validate_eq_none_iff (R : RoleNames) (c : Config) :
    c.Validate R = none ↔ c.expectedErrs R = [] := by
  rw [config_validate_eq, config_validateErrs_eq_expected]
  split_ifs with h <;> simp [h]

theorem loadBalancerError_mem_iff (R : RoleNames) (c : Config) :
    loadBalancerError R ∈ c.validateErrs R ↔
      1 < c.controlPlaneCount R ∧ c.loadBalancerCount R = 0 := by
  rw [config_validateErrs_eq_expected]
  unfold Config.expectedErrs
  have h1 := loadBalancerError_not_mem_expectedNodeErrors R c.Nodes
  have h2 := loadBalancerError_ne_controlPlaneError R
  simp only [List.mem_append, h1, false_or]
  split_ifs with ha hb hb <;> simp [h2, hb]

/-- C1: `Config.Validate` returns nil exactly when `Node.Validate` returns nil for
every node, some node has Role ControlPlane (the bootstrap control-plane node
exists), and at most one node has Role ControlPlane or some node has Role
ExternalLoadBalancer; the configuration of one ControlPlane node with image
"img:v1" validates. -/
theorem config_validate_nil_iff (R : RoleNames) (c : Config) :
    (c.Validate R = none ↔
      (∀ n ∈ c.Nodes, n.Validate R = none) ∧
      (∃ n ∈ c.Nodes, n.Role = R.ControlPlaneRole) ∧
      (c.controlPlaneCount R ≤ 1 ∨ ∃ n ∈ c.Nodes, n.Role = R.ExternalLoadBalancerRole)) ∧
    ((∃ b, c.BootStrapControlPlane R = some b) ↔ ∃ n ∈ c.Nodes, n.Role = R.ControlPlaneRole) ∧
    (scenarioA R).Validate R = none := by
  refine ⟨?_, ?_, ?_⟩
  · rw [config_validate_eq_none_iff]
    unfold Config.expectedErrs
    have hcp := controlPlaneCount_eq_zero_iff R c
    have hlb := loadBalancerCount_eq_zero_iff R c
    simp only [List.append_eq_nil, expectedNodeErrors_nil_iff]
    constructor
    · rintro ⟨⟨h1, h2⟩, h3⟩
      refine ⟨h1, ?_, ?_⟩
      · by_contra hno
        rw [if_pos (hcp.mpr hno)] at h2
        exact absurd h2 (by simp)
      · by_contra hno
        rw [not_or] at hno
        rw [if_pos ⟨by omega, hlb.mpr hno.2⟩] at h3
        exact absurd h3 (by simp)
    · rintro ⟨h1, h2, h3⟩
      refine ⟨⟨h1, ?_⟩, ?_⟩
      · rw [if_neg (fun h0 => hcp.mp h0 h2)]
      · rw [if_neg]
        rintro ⟨hgt, h0⟩
        rcases h3 with h3 | h3
        · omega
        · exact hlb.mp h0 h3
  · have hcp := controlPlaneCount_eq_zero_iff R c
    have hb := bootStrap_isNone_iff R c
    cases h : c.BootStrapControlPlane R with
    | none =>
      rw [h] at hb
      have hno := hcp.mp (hb.mp rfl)
      simp only [reduceCtorEq, exists_false, false_iff]
      exact hno
    | some b =>
      rw [h] at hb
      have hyes : ¬ c.controlPlaneCount R = 0 := fun h0 => absurd (hb.mpr h0) (by simp)
      have hex : ∃ n ∈ c.Nodes, n.Role = R.ControlPlaneRole := by
        by_contra hno
        exact hyes (hcp.mpr hno)
      exact ⟨fun _ => hex, fun _ => ⟨b, rfl⟩⟩
  · rw [config_validate_eq_none_iff]
    simp [Config.expectedErrs, expectedNodeErrors, scenarioA, Config.controlPlaneCount,
      Node.Validate, Node.validateErrs, roleRecognized, List.enum, List.enumFrom]

/-- C3: the error list of `Config.Validate` is the wrapped error of every node
whose `Node.Validate` is not nil, by increasing index, then the
control-plane-missing error when no node has Role ControlPlane, then the
load-balancer error when more than one node has Role ControlPlane and none has
Role ExternalLoadBalancer, and nothing else. -/
theorem config_errors_exact (R : RoleNames) (c : Config) :
    c.validateErrs R =
      c.Nodes.enum.filterMap (fun p => (p.2.Validate R).map (nodeError p.1)) ++
        (if c.controlPlaneCount R = 0 then [controlPlaneError R] else []) ++
        (if 1 < c.controlPlaneCount R ∧ c.loadBalancerCount R = 0 then [loadBalancerError R]
          else []) ∧
    (∀ i err, nodeError i err ∈
        c.Nodes.enum.filterMap (fun p => (p.2.Validate R).map (nodeError p.1)) ↔
      ∃ n, c.Nodes[i]? = some n ∧ n.Validate R = some err) ∧
    (c.controlPlaneCount R = 0 ↔ ¬ ∃ n ∈ c.Nodes, n.Role = R.ControlPlaneRole) ∧
    (c.loadBalancerCount R = 0 ↔ ¬ ∃ n ∈ c.Nodes, n.Role = R.ExternalLoadBalancerRole) ∧
    c.Validate R = (if c.validateErrs R = [] then none else some ⟨c.validateErrs R⟩) :=
  ⟨config_validateErrs_eq_expected R c, fun i err => nodeError_mem_expected R c.Nodes i err,
    controlPlaneCount_eq_zero_iff R c, loadBalancerCount_eq_zero_iff R c,
    config_validate_eq R c⟩

/-- C6: on a configuration without nodes `Config.Validate` returns a non-nil
result whose error list is exactly the control-plane-missing error: no wrapped
node error and no load-balancer error. -/
theorem empty_config_errors (R : RoleNames) (c : Config) (h : c.Nodes = []) :
    ∃ e, c.Validate R = some e ∧ e.errors = [controlPlaneError R] ∧
      (controlPlaneError R).format = "please add at least one node with role %q" ∧
      loadBalancerError R ∉ e.errors ∧ ∀ i err, nodeError i err ∉ e.errors := by
  refine ⟨⟨[controlPlaneError R]⟩, ?_, rfl, rfl, ?_, ?_⟩
  · rw [config_validate_eq, config_validateErrs_eq_expected]
    simp [Config.expectedErrs, expectedNodeErrors, Config.controlPlaneCount, h]
  · simpa using loadBalancerError_ne_controlPlaneError R
  · intro i err hmem
    have heq : nodeError i err = controlPlaneError R := by simpa using hmem
    have hf : nodeFormat = controlPlaneFormat := congrArg FmtError.format heq
    exact absurd hf (by decide)

/-- The statement of C6 at the configuration whose `Nodes` is empty. -/
theorem empty_config_errors_witness :
    (⟨[]⟩ : Config).Nodes = [] ∧
    ∃ e, Config.Validate kindRoles ⟨[]⟩ = some e ∧ e.errors = [controlPlaneError kindRoles] ∧
      (controlPlaneError kindRoles).format = "please add at least one node with role %q" ∧
      loadBalancerError kindRoles ∉ e.errors ∧ ∀ i err, nodeError i err ∉ e.errors :=
  ⟨rfl, empty_config_errors kindRoles ⟨[]⟩ rfl⟩

/-- C9: `Config.Validate` reports the load-balancer error exactly when more than
one node has Role ControlPlane and no node has Role ExternalLoadBalancer: not
with one ControlPlane node and no ExternalLoadBalancer node, with two and none,
and not with two and one. -/
theorem load_balancer_error_iff (R : RoleNames) (c : Config) :
    ((∃ e, c.Validate R = some e ∧ loadBalancerError R ∈ e.errors) ↔
      1 < c.controlPlaneCount R ∧ ¬ ∃ n ∈ c.Nodes, n.Role = R.ExternalLoadBalancerRole) ∧
    (loadBalancerError R ∈ c.validateErrs R ↔
      1 < c.controlPlaneCount R ∧ c.loadBalancerCount R = 0) ∧
    (c.controlPlaneCount R = 1 → c.loadBalancerCount R = 0 →
      loadBalancerError R ∉ c.validateErrs R) ∧
    (c.controlPlaneCount R = 2 → c.loadBalancerCount R = 0 →
      loadBalancerError R ∈ c.validateErrs R) ∧
    (c.controlPlaneCount R = 2 → c.loadBalancerCount R = 1 →
      loadBalancerError R ∉ c.validateErrs R) := by
  have key := loadBalancerError_mem_iff R c
  refine ⟨?_, key, ?_, ?_, ?_⟩
  · rw [← loadBalancerCount_eq_zero_iff, ← key, config_validate_eq]
    constructor
    · rintro ⟨e, he, hmem⟩
      split_ifs at he with h0
      cases he
      exact hmem
    · intro hmem
      have hne : c.validateErrs R ≠ [] := List.ne_nil_of_mem hmem
      exact ⟨⟨c.validateErrs R⟩, by rw [if_neg hne], hmem⟩
  · intro h1 h2
    rw [key]
    omega
  · intro h1 h2
    rw [key]
    omega
  · intro h1 h2
    rw [key]
    omega

theorem scenarioB_length_le (R : RoleNames) : (scenarioB.validateErrs R).length ≤ 2 := by
  rw [config_validateErrs_eq_expected]
  have hcount : scenarioB.controlPlaneCount R ≤ 1 := by
    unfold Config.controlPlaneCount scenarioB
    exact List.countP_le_length _
  have hlb : ¬ (1 < scenarioB.controlPlaneCount R ∧ scenarioB.loadBalancerCount R = 0) := by
    omega
  unfold Config.expectedErrs
  rw [if_neg hlb]
  have hn : (expectedNodeErrors R scenarioB.Nodes).length ≤ 1 := by
    unfold expectedNodeErrors
    exact le_trans (List.length_filterMap_le _ _) (by simp [scenarioB])
  simp only [List.append_nil, List.length_append]
  split_ifs <;> simp <;> omega

/-- C10 as stated fails: on the configuration of one node with empty Role and
empty Image the error list returned by `Config.Validate` has two elements, and
for no values of the role constants does it have three. -/
theorem scenarioB_not_three_errors :
    (scenarioB.Validate kindRoles).map (fun e => e.errors.length) = some 2 ∧
    ¬ ∃ R e, scenarioB.Validate R = some e ∧ e.errors.length = 3 := by
  refine ⟨by decide, ?_⟩
  rintro ⟨R, e, he, hlen⟩
  rw [config_validate_eq] at he
  have hle := scenarioB_length_le R
  split_ifs at he with h0
  cases he
  simp only at hlen
  omega

/-- C10, amended: on the configuration of one node with empty Role and empty
Image, the empty Role being none of the role constants, `Node.Validate` gives the
node the two errors role and image, and `Config.Validate` returns a list of two
errors: the wrapped error of node 0 carrying those two, then the
control-plane-missing error. -/
theorem scenarioB_errors (R : RoleNames) (hR : emptyRoleUnrecognized R) :
    (∀ n ∈ scenarioB.Nodes, n.Validate R = some ⟨[roleMsg, imageMsg]⟩) ∧
    scenarioB.Validate R =
      some ⟨[nodeError 0 ⟨[roleMsg, imageMsg]⟩, controlPlaneError R]⟩ ∧
    (scenarioB.validateErrs R).length = 2 := by
  have hrole : roleRecognized R "" = false := hR
  have hnode : Node.Validate R ⟨"", "", none, none⟩ = some ⟨[roleMsg, imageMsg]⟩ := by
    simp [Node.Validate, Node.validateErrs, hrole, NewErrors]
  have hcp : ("" == R.ControlPlaneRole) = false := by
    unfold roleRecognized at hrole
    simp only [Bool.or_eq_false_iff] at hrole
    exact hrole.1.1.1
  have herrs : scenarioB.validateErrs R =
      [nodeError 0 ⟨[roleMsg, imageMsg]⟩, controlPlaneError R] := by
    rw [config_validateErrs_eq_expected]
    simp [Config.expectedErrs, expectedNodeErrors, scenarioB, Config.controlPlaneCount, hnode,
      hcp, List.enum, List.enumFrom]
  refine ⟨?_, ?_, ?_⟩
  · intro n hn
    have hn2 : n = ⟨"", "", none, none⟩ := by simpa [scenarioB] using hn
    rw [hn2]
    exact hnode
  · rw [config_validate_eq, herrs]
    simp
  · rw [herrs]
    rfl

/-- The amended C10 at the sample role constants, none of which is empty. -/
theorem scenarioB_errors_witness :
    emptyRoleUnrecognized kindRoles ∧
    scenarioB.Validate kindRoles =
      some ⟨[nodeError 0 ⟨[roleMsg, imageMsg]⟩, controlPlaneError kindRoles]⟩ :=
  ⟨by decide, (scenarioB_errors kindRoles (by decide)).2.1⟩

/-! ## Lemmas on the rendered text -/

theorem renderS_cons_ne (c : Char) (rest : List Char) (args : List String) (hc : c ≠ '%') :
    renderS (c :: rest) args = c :: renderS rest args :=
  renderS.eq_3 args c rest (fun _ _ _ h _ _ => hc h) (fun _ h _ _ => hc h)

theorem renderS_no_verb (pre : List Char) (args : List String) (h : '%' ∉ pre) :
    renderS pre args = pre := by
  induction pre with
  | nil => exact renderS.eq_4 args
  | cons c rest ih =>
    have hc : c ≠ '%' := fun e => h (by simp [e])
    have hr : '%' ∉ rest := fun e => h (by simp [e])
    rw [renderS_cons_ne c rest args hc, ih hr]

theorem renderS_verb (pre rest : List Char) (a : String) (args : List String)
    (h : '%' ∉ pre) :
    renderS (pre ++ '%' :: 's' :: rest) (a :: args) = pre ++ (a.toList ++ renderS rest args) := by
  induction pre with
  | nil => exact renderS.eq_1 rest a args
  | cons c more ih =>
    have hc : c ≠ '%' := fun e => h (by simp [e])
    have hr : '%' ∉ more := fun e => h (by simp [e])
    rw [List.cons_append, renderS_cons_ne _ _ _ hc, ih hr, List.cons_append]

/-- The head of the load-balancer text, up to the first role. -/
theorem loadBalancerFormat_split :
    loadBalancerFormat.toList =
      "please add a node with role ".toList ++ '%' :: 's' ::
        (" because in the cluster there are more than one node with role ".toList ++
          '%' :: 's' :: []) := by
  decide

theorem loadBalancerError_text (R : RoleNames) :
    (loadBalancerError R).textS.toList =
      "please add a node with role ".toList ++ (R.ExternalLoadBalancerRole.toList ++
        (" because in the cluster there are more than one node with role ".toList ++
          R.ControlPlaneRole.toList)) := by
  have h1 : '%' ∉ "please add a node with role ".toList := by decide
  have h2 : '%' ∉ " because in the cluster there are more than one node with role ".toList := by
    decide
  show renderS loadBalancerFormat.toList
    [R.ExternalLoadBalancerRole, R.ControlPlaneRole] = _
  rw [loadBalancerFormat_split, renderS_verb _ _ _ _ h1, renderS_verb _ _ _ _ h2, renderS.eq_4]
  simp

theorem loadBalancerError_text_ne_claimed (R : RoleNames) :
    (loadBalancerError R).textS ≠ claimedLoadBalancerText := by
  intro heq
  have hl := congrArg String.toList heq
  rw [loadBalancerError_text] at hl
  have hc : claimedLoadBalancerText.toList = "please add a node with role ".toList ++
      "ExternalLoadBalancer because there are multiple ControlPlane nodes".toList := by decide
  rw [hc] at hl
  have h2 := List.append_cancel_left hl
  have hlen := congrArg List.length h2
  simp only [List.length_append] at hlen
  have hm : " because in the cluster there are more than one node with role ".toList.length = 63 := by
    decide
  have ht : "ExternalLoadBalancer because there are multiple ControlPlane nodes".toList.length = 66 := by
    decide
  rw [hm, ht] at hlen
  have hk : R.ExternalLoadBalancerRole.toList.length ≤ 3 := by omega
  have hd := congrArg (List.drop R.ExternalLoadBalancerRole.toList.length) h2
  rw [List.drop_left] at hd
  have ht63 := congrArg (List.take 63) hd
  rw [← hm, List.take_left] at ht63
  rw [hm] at ht63
  generalize R.ExternalLoadBalancerRole.toList.length = k at hk ht63
  interval_cases k <;> exact absurd ht63 (by decide)

/-- C11: a configuration of two nodes that both have Role ControlPlane and a
non-empty Image, nothing else set, the ControlPlane role not being the
ExternalLoadBalancer role, makes `Config.Validate` return a list of exactly one
error, the load-balancer error: no wrapped node error and no
control-plane-missing error. -/
theorem two_control_planes_errors (R : RoleNames) (image1 image2 : String)
    (h1 : image1 ≠ "") (h2 : image2 ≠ "")
    (hlb : R.ControlPlaneRole ≠ R.ExternalLoadBalancerRole) :
    (twoControlPlanes R image1 image2).loadBalancerCount R = 0 ∧
    (twoControlPlanes R image1 image2).Validate R = some ⟨[loadBalancerError R]⟩ ∧
    (∀ e, (twoControlPlanes R image1 image2).Validate R = some e →
      e.errors.length = 1 ∧ controlPlaneError R ∉ e.errors ∧
        ∀ i err, nodeError i err ∉ e.errors) := by
  have hv1 : Node.Validate R ⟨R.ControlPlaneRole, image1, none, none⟩ = none := by
    simp [Node.Validate, Node.validateErrs, roleRecognized, h1]
  have hv2 : Node.Validate R ⟨R.ControlPlaneRole, image2, none, none⟩ = none := by
    simp [Node.Validate, Node.validateErrs, roleRecognized, h2]
  have hcount : (twoControlPlanes R image1 image2).loadBalancerCount R = 0 := by
    simp [twoControlPlanes, Config.loadBalancerCount, hlb]
  have herrs : (twoControlPlanes R image1 image2).validateErrs R = [loadBalancerError R] := by
    rw [config_validateErrs_eq_expected]
    unfold Config.expectedErrs
    rw [hcount]
    simp [expectedNodeErrors, twoControlPlanes, Config.controlPlaneCount, hv1, hv2,
      List.enum, List.enumFrom]
  have hval : (twoControlPlanes R image1 image2).Validate R = some ⟨[loadBalancerError R]⟩ := by
    rw [config_validate_eq, herrs]
    simp
  refine ⟨hcount, hval, ?_⟩
  intro e he
  rw [hval] at he
  cases he
  refine ⟨rfl, ?_, ?_⟩
  · intro hmem
    have heq : controlPlaneError R = loadBalancerError R := by simpa using hmem
    exact loadBalancerError_ne_controlPlaneError R heq.symm
  · intro i err hmem
    have heq : nodeError i err = loadBalancerError R := by simpa using hmem
    have hf : nodeFormat = loadBalancerFormat := congrArg FmtError.format heq
    exact absurd hf (by decide)

/-- The statement of C11 at two ControlPlane nodes with image "img". -/
theorem two_control_planes_errors_witness :
    "img" ≠ "" ∧ kindRoles.ControlPlaneRole ≠ kindRoles.ExternalLoadBalancerRole ∧
    (twoControlPlanes kindRoles "img" "img").Validate kindRoles =
      some ⟨[loadBalancerError kindRoles]⟩ :=
  ⟨by decide, by decide,
    (two_control_planes_errors kindRoles "img" "img" (by decide) (by decide) (by decide)).2.1⟩

/-- How often the PostKubeadm text occurs among the errors of seven checks. -/
theorem checks_count_post (b1 b2 b3 b4 b5 b6 b7 : Bool) :
    (([(b1, roleMsg), (b2, imageMsg), (b3, replicasMsg), (b4, preBootMsg),
      (b5, preKubeadmMsg), (b6, postKubeadmMsg), (b7, postSetupMsg)].filter
        (fun p => p.1)).map (fun p => p.2)).count postKubeadmMsg =
      (if b6 then 1 else 0) + (if b7 then 1 else 0) := by
  cases b1 <;> cases b2 <;> cases b3 <;> cases b4 <;> cases b5 <;> cases b6 <;> cases b7 <;>
    decide

theorem hasEmptyCommand_ite (hooks : List LifecycleHook) :
    (if hasEmptyCommand hooks then 1 else 0) =
      (if ∃ h ∈ hooks, h.Command = [] then 1 else 0) := by
  by_cases h : hasEmptyCommand hooks = true
  · rw [if_pos h, if_pos ((hasEmptyCommand_iff hooks).mp h)]
  · rw [if_neg h, if_neg (fun h2 => h ((hasEmptyCommand_iff hooks).mpr h2))]

/-- C12: with the lifecycle present, the error `Node.Validate` emits for the
PostSetup group has the text of the PostKubeadm error, "postKubeadm hooks must
set command to a non-empty value", while the hooks scanned for it are those of
PostSetup: the text occurs once for an empty command in PostKubeadm, once for
one in PostSetup, hence twice when both groups have one. -/
theorem post_setup_reuses_post_kubeadm_text (R : RoleNames) (n : Node) (cp : ControlPlane)
    (lc : NodeLifecycle) (hcp : n.ControlPlane = some cp) (hlc : cp.NodeLifecycle = some lc) :
    postSetupMsg = postKubeadmMsg ∧
    postSetupMsg = "postKubeadm hooks must set command to a non-empty value" ∧
    n.validateErrs R =
      n.fieldErrs R ++ groupErrs preBootMsg lc.PreBoot ++ groupErrs preKubeadmMsg lc.PreKubeadm ++
        groupErrs postKubeadmMsg lc.PostKubeadm ++ groupErrs postSetupMsg lc.PostSetup ∧
    groupErrs postSetupMsg lc.PostSetup =
      (if ∃ h ∈ lc.PostSetup, h.Command = [] then
        ["postKubeadm hooks must set command to a non-empty value"] else []) ∧
    (n.validateErrs R).count "postKubeadm hooks must set command to a non-empty value" =
      (if ∃ h ∈ lc.PostKubeadm, h.Command = [] then 1 else 0) +
        (if ∃ h ∈ lc.PostSetup, h.Command = [] then 1 else 0) := by
  refine ⟨rfl, rfl, validateErrs_of_lifecycle R n cp lc hcp hlc, ?_, ?_⟩
  · rw [groupErrs_eq]
    by_cases h : hasEmptyCommand lc.PostSetup = true
    · rw [if_pos h, if_pos ((hasEmptyCommand_iff _).mp h)]
      rfl
    · rw [if_neg h, if_neg (fun h2 => h ((hasEmptyCommand_iff _).mpr h2))]
  · rw [← hasEmptyCommand_ite, ← hasEmptyCommand_ite,
      ← groupFails_of_lifecycle n cp lc hcp hlc NodeLifecycle.PostKubeadm,
      ← groupFails_of_lifecycle n cp lc hcp hlc NodeLifecycle.PostSetup,
      node_validateErrs_eq_expected]
    exact checks_count_post (!roleRecognized R n.Role) (n.Image == "") n.replicasNegative
      (n.groupFails NodeLifecycle.PreBoot) (n.groupFails NodeLifecycle.PreKubeadm)
      (n.groupFails NodeLifecycle.PostKubeadm) (n.groupFails NodeLifecycle.PostSetup)

/-- The statement of C12 at `worstNode`, which has an empty command both in
PostKubeadm and in PostSetup: the PostKubeadm text occurs twice. -/
theorem post_setup_reuses_post_kubeadm_text_witness :
    worstNode.ControlPlane = some ⟨some ⟨[⟨[]⟩], [⟨["a"]⟩, ⟨[]⟩, ⟨["b"]⟩], [⟨[]⟩, ⟨[]⟩],
      [⟨["ls", "-l"]⟩, ⟨[]⟩]⟩⟩ ∧
    (worstNode.validateErrs kindRoles).count
      "postKubeadm hooks must set command to a non-empty value" = 2 :=
  ⟨rfl, (post_setup_reuses_post_kubeadm_text kindRoles worstNode
    ⟨some ⟨[⟨[]⟩], [⟨["a"]⟩, ⟨[]⟩, ⟨["b"]⟩], [⟨[]⟩, ⟨[]⟩], [⟨["ls", "-l"]⟩, ⟨[]⟩]⟩⟩
    ⟨[⟨[]⟩], [⟨["a"]⟩, ⟨[]⟩, ⟨["b"]⟩], [⟨[]⟩, ⟨[]⟩], [⟨["ls", "-l"]⟩, ⟨[]⟩]⟩ rfl rfl).2.2.2.2⟩

theorem loadBalancerError_textS (R : RoleNames) :
    (loadBalancerError R).textS =
      "please add a node with role " ++ R.ExternalLoadBalancerRole ++
        " because in the cluster there are more than one node with role " ++
        R.ControlPlaneRole := by
  apply String.ext
  have h := loadBalancerError_text R
  simp only [String.toList] at h
  rw [h]
  simp [String.data_append]

/-- C13 as stated fails: the load-balancer error that `Config.Validate` emits for
two ControlPlane nodes without an ExternalLoadBalancer node does not have the
text the claim gives, whatever the values of the role constants are. -/
theorem load_balancer_text_differs :
    loadBalancerError specRoles ∈ (twoControlPlanes specRoles "img" "img").validateErrs specRoles ∧
    (loadBalancerError specRoles).textS =
      "please add a node with role ExternalLoadBalancer because in the cluster there are more than one node with role ControlPlane" ∧
    (loadBalancerError specRoles).textS ≠
      "please add a node with role ExternalLoadBalancer because there are multiple ControlPlane nodes" ∧
    (loadBalancerError kindRoles).textS =
      "please add a node with role external-load-balancer because in the cluster there are more than one node with role control-plane" ∧
    ¬ ∃ R, (loadBalancerError R).textS = claimedLoadBalancerText := by
  refine ⟨by decide, by decide, by decide, by decide, ?_⟩
  rintro ⟨R, h⟩
  exact loadBalancerError_text_ne_claimed R h

/-- C13, amended: for a configuration with more than one ControlPlane node and no
ExternalLoadBalancer node, the topology error `Config.Validate` emits is built
from the format "please add a node with role %s because in the cluster there are
more than one node with role %s" with the ExternalLoadBalancer and ControlPlane
role constants, so its text is "please add a node with role ", the
ExternalLoadBalancer constant, " because in the cluster there are more than one
node with role ", the ControlPlane constant. -/
theorem load_balancer_text (R : RoleNames) (c : Config) (hcp : 1 < c.controlPlaneCount R)
    (hlb : c.loadBalancerCount R = 0) :
    (∃ e, c.Validate R = some e ∧ loadBalancerError R ∈ e.errors) ∧
    (loadBalancerError R).format =
      "please add a node with role %s because in the cluster there are more than one node with role %s" ∧
    (loadBalancerError R).args =
      [FmtArg.role R.ExternalLoadBalancerRole, FmtArg.role R.ControlPlaneRole] ∧
    (loadBalancerError R).textS =
      "please add a node with role " ++ R.ExternalLoadBalancerRole ++
        " because in the cluster there are more than one node with role " ++
        R.ControlPlaneRole := by
  have hmem : loadBalancerError R ∈ c.validateErrs R :=
    (loadBalancerError_mem_iff R c).mpr ⟨hcp, hlb⟩
  refine ⟨⟨⟨c.validateErrs R⟩, ?_, hmem⟩, rfl, rfl, loadBalancerError_textS R⟩
  rw [config_validate_eq, if_neg (List.ne_nil_of_mem hmem)]

/-- The amended C13 at two ControlPlane nodes with image "img". -/
theorem load_balancer_text_witness :
    1 < (twoControlPlanes kindRoles "img" "img").controlPlaneCount kindRoles ∧
    (twoControlPlanes kindRoles "img" "img").loadBalancerCount kindRoles = 0 ∧
    (loadBalancerError kindRoles).textS =
      "please add a node with role " ++ kindRoles.ExternalLoadBalancerRole ++
        " because in the cluster there are more than one node with role " ++
        kindRoles.ControlPlaneRole :=
  ⟨by decide, by decide,
    (load_balancer_text kindRoles (twoControlPlanes kindRoles "img" "img") (by decide)
      (by decide)).2.2.2⟩

/-! ## Totality -/

theorem node_validateChecked_eq (R : RoleNames) (n : Node) :
    n.validateChecked R = Except.ok (n.Validate R) := by
  rcases n with ⟨role, image, rep, cp⟩
  unfold Node.validateChecked Node.Validate Node.validateErrs
  rcases rep with _ | r <;> rcases cp with _ | ⟨_ | lc⟩ <;>
    simp [deref, bind, Except.bind, pure, Except.pure] <;> split_ifs <;> simp_all

theorem validateNodesChecked_eq (R : RoleNames) (nodes : List Node) (i : Nat)
    (errs : List FmtError) :
    validateNodesChecked R nodes i errs = Except.ok (validateNodes R nodes i errs) := by
  induction nodes generalizing i errs with
  | nil => rfl
  | cons n rest ih =>
    unfold validateNodesChecked validateNodes
    rw [node_validateChecked_eq]
    cases h : n.Validate R <;> simp [bind, Except.bind, ih]

theorem config_validateChecked_eq (R : RoleNames) (c : Config) :
    c.validateChecked R = Except.ok (c.Validate R) := by
  unfold Config.validateChecked Config.Validate Config.validateErrs
  simp only [validateNodesChecked_eq, bind, Except.bind, pure, Except.pure]
  split_ifs <;> rfl

/-- C14: `Config.Validate` and `Node.Validate` return on every input, without a
nil dereference, nil or an error list that is not empty: also on an empty Nodes,
absent Replicas, absent ControlPlane, absent NodeLifecycle, empty hook groups and
hooks with a nil Command. -/
theorem validate_total (R : RoleNames) (c : Config) (n : Node) :
    n.validateChecked R = Except.ok (n.Validate R) ∧
    c.validateChecked R = Except.ok (c.Validate R) ∧
    (n.Validate R = none ∨ ∃ e, n.Validate R = some e ∧ e.errors ≠ []) ∧
    (c.Validate R = none ∨ ∃ e, c.Validate R = some e ∧ e.errors ≠ []) ∧
    (∃ e, Config.validateChecked R ⟨[]⟩ = Except.ok (some e) ∧ e.errors ≠ []) ∧
    Config.validateChecked R ⟨[bareNode R]⟩ = Except.ok none ∧
    Node.validateChecked R (bareNode R) = Except.ok none ∧
    Node.validateChecked R (nilHooksNode R) =
      Except.ok (some ⟨[preKubeadmMsg, postSetupMsg]⟩) := by
  have hbare : (bareNode R).Validate R = none := by
    simp [bareNode, Node.Validate, Node.validateErrs, roleRecognized]
  refine ⟨node_validateChecked_eq R n, config_validateChecked_eq R c, ?_, ?_, ?_, ?_, ?_, ?_⟩
  · rw [node_validate_eq]
    by_cases h : n.validateErrs R = []
    · exact Or.inl (by rw [if_pos h])
    · exact Or.inr ⟨⟨n.validateErrs R⟩, by rw [if_neg h], h⟩
  · rw [config_validate_eq]
    by_cases h : c.validateErrs R = []
    · exact Or.inl (by rw [if_pos h])
    · exact Or.inr ⟨⟨c.validateErrs R⟩, by rw [if_neg h], h⟩
  · refine ⟨⟨[controlPlaneError R]⟩, ?_, by simp⟩
    rw [config_validateChecked_eq, config_validate_eq, config_validateErrs_eq_expected]
    simp [Config.expectedErrs, expectedNodeErrors, Config.controlPlaneCount]
  · rw [config_validateChecked_eq, (config_validate_eq_none_iff R _).mpr]
    have hrole : (bareNode R).Role = R.ControlPlaneRole := rfl
    simp [Config.expectedErrs, expectedNodeErrors, Config.controlPlaneCount, hbare,
      List.enum, List.enumFrom, hrole]
  · rw [node_validateChecked_eq, hbare]
  · rw [node_validateChecked_eq]
    simp [nilHooksNode, Node.Validate, Node.validateErrs, roleRecognized, scanHooks, NewErrors]

/-! ## The topology errors, the create-cluster flow -/

theorem controlPlaneError_not_mem_expectedNodeErrors (R : RoleNames) (nodes : List Node) :
    controlPlaneError R ∉ expectedNodeErrors R nodes := by
  unfold expectedNodeErrors
  simp only [List.mem_filterMap, Option.map_eq_some', Prod.exists, not_exists, not_and]
  intro j n _ e _ heq
  have hf : nodeFormat = controlPlaneFormat := congrArg FmtError.format heq
  exact absurd hf (by decide)

theorem controlPlaneError_mem_iff (R : RoleNames) (c : Config) :
    controlPlaneError R ∈ c.validateErrs R ↔ c.controlPlaneCount R = 0 := by
  rw [config_validateErrs_eq_expected]
  unfold Config.expectedErrs
  have h1 := controlPlaneError_not_mem_expectedNodeErrors R c.Nodes
  have h2 : controlPlaneError R ≠ loadBalancerError R :=
    fun h => loadBalancerError_ne_controlPlaneError R h.symm
  simp only [List.mem_append, h1, false_or]
  split_ifs with ha hb hb <;> simp [h2, ha]

theorem expectedNodeErrors_length_le (R : RoleNames) (nodes : List Node) :
    (expectedNodeErrors R nodes).length ≤ nodes.length := by
  unfold expectedNodeErrors
  exact le_trans (List.length_filterMap_le _ _) (by simp)

/-- C17: the control-plane-missing error and the load-balancer error never both
appear in one result of `Config.Validate`, so the returned list has at most
`len(Nodes) + 1` errors. -/
theorem topology_errors_exclusive (R : RoleNames) (c : Config) :
    ¬ (controlPlaneError R ∈ c.validateErrs R ∧ loadBalancerError R ∈ c.validateErrs R) ∧
    (c.BootStrapControlPlane R = none → ¬ 1 < (c.ControlPlanes R).length) ∧
    (c.validateErrs R).length ≤ c.Nodes.length + 1 ∧
    (∀ e, c.Validate R = some e →
      ¬ (controlPlaneError R ∈ e.errors ∧ loadBalancerError R ∈ e.errors) ∧
        e.errors.length ≤ c.Nodes.length + 1) := by
  have hex : ¬ (controlPlaneError R ∈ c.validateErrs R ∧
      loadBalancerError R ∈ c.validateErrs R) := by
    rw [controlPlaneError_mem_iff, loadBalancerError_mem_iff]
    omega
  have hlen : (c.validateErrs R).length ≤ c.Nodes.length + 1 := by
    rw [config_validateErrs_eq_expected]
    unfold Config.expectedErrs
    have hn := expectedNodeErrors_length_le R c.Nodes
    simp only [List.length_append]
    split_ifs with ha hb hb <;> simp <;> omega
  refine ⟨hex, ?_, hlen, ?_⟩
  · intro hb
    have h0 : c.controlPlaneCount R = 0 := (bootStrap_isNone_iff R c).mp (by rw [hb]; rfl)
    rw [controlPlanes_length, h0]
    omega
  · intro e he
    rw [config_validate_eq] at he
    split_ifs at he with h0
    cases he
    exact ⟨hex, hlen⟩

theorem createStep_created (env : Collaborators) (flags : flagpole) (cfg : Config) :
    (createStep env flags cfg).created = some cfg := by
  unfold createStep
  cases env.Create flags.Name cfg flags.Retain flags.Wait <;> rfl

theorem runE_created_valid (R : RoleNames) (env : Collaborators) (flags : flagpole)
    (cfg : Config) (h : (runE R env flags).created = some cfg) : cfg.Validate R = none := by
  unfold runE at h
  cases hl : env.Load flags.Config with
  | error err =>
    rw [hl] at h
    simp at h
  | ok c0 =>
    rw [hl] at h
    cases hv : c0.Validate R with
    | some e => simp [hv] at h
    | none =>
      simp only [hv] at h
      by_cases h1 : env.AllReplicas c0 > 1
      · simp [h1] at h
      · by_cases h2 : flags.ImageName = ""
        · simp only [h1, h2, if_false, ne_eq, not_true_eq_false, createStep_created] at h
          cases h
          exact hv
        · cases hs : env.setBootStrapImage c0 flags.ImageName with
          | none => simp [h1, h2, hs] at h
          | some c2 =>
            cases hv2 : c2.Validate R with
            | some e2 => simp [h1, h2, hs, hv2] at h
            | none =>
              simp only [h1, h2, hs, hv2, if_false, ne_eq, not_false_eq_true, if_true,
                createStep_created] at h
              cases h
              exact hv2

/-- C16: `runE` never reaches `ctx.Create` with an invalid configuration: a
non-nil result of the first `Config.Validate` makes it return "aborting due to
invalid configuration" without a call of `Create`, so does a non-nil result of
the validation after an image override, and every configuration passed to
`Create` has `Config.Validate` nil. -/
theorem create_only_valid (R : RoleNames) (env : Collaborators) (flags : flagpole) :
    (∀ cfg, (runE R env flags).created = some cfg → cfg.Validate R = none) ∧
    (∀ cfg e, env.Load flags.Config = Except.ok cfg → cfg.Validate R = some e →
      runE R env flags = ⟨none, Exit.error abortError⟩) ∧
    (∀ cfg cfg2 e, env.Load flags.Config = Except.ok cfg → cfg.Validate R = none →
      env.AllReplicas cfg ≤ 1 → flags.ImageName ≠ "" →
      env.setBootStrapImage cfg flags.ImageName = some cfg2 → cfg2.Validate R = some e →
      runE R env flags = ⟨none, Exit.error abortError⟩) ∧
    abortError = ⟨"aborting due to invalid configuration", none⟩ ∧
    runE kindRoles (sampleEnv kindRoles scenarioB) (sampleFlags "") =
      ⟨none, Exit.error abortError⟩ ∧
    runE kindRoles (brokenOverrideEnv (scenarioA kindRoles)) (sampleFlags "img:v2") =
      ⟨none, Exit.error abortError⟩ ∧
    runE kindRoles (sampleEnv kindRoles (scenarioA kindRoles)) (sampleFlags "") =
      ⟨some (scenarioA kindRoles), Exit.ok⟩ := by
  refine ⟨fun cfg h => runE_created_valid R env flags cfg h, ?_, ?_, rfl, by decide, by decide,
    by decide⟩
  · intro cfg e hl hv
    unfold runE
    rw [hl]
    simp only [hv]
  · intro cfg cfg2 e hl hv hr hi hs hv2
    unfold runE
    rw [hl]
    simp only [hv, hs, hv2]
    rw [if_neg (by omega), if_pos hi]

/-! ## The image override -/

theorem config_valid_iff (R : RoleNames) (c : Config) :
    c.Validate R = none ↔
      (∀ n ∈ c.Nodes, n.Validate R = none) ∧ c.controlPlaneCount R ≠ 0 ∧
        ¬ (1 < c.controlPlaneCount R ∧ c.loadBalancerCount R = 0) := by
  rw [config_validate_eq_none_iff]
  unfold Config.expectedErrs
  simp only [List.append_eq_nil, expectedNodeErrors_nil_iff]
  constructor
  · rintro ⟨⟨h1, h2⟩, h3⟩
    refine ⟨h1, ?_, ?_⟩
    · intro h0
      rw [if_pos h0] at h2
      exact absurd h2 (by simp)
    · intro hlb
      rw [if_pos hlb] at h3
      exact absurd h3 (by simp)
  · rintro ⟨h1, h2, h3⟩
    exact ⟨⟨h1, by rw [if_neg h2]⟩, by rw [if_neg h3]⟩

theorem node_valid_set_image (R : RoleNames) (n : Node) (image : String)
    (hv : n.Validate R = none) (hi : image ≠ "") :
    Node.Validate R { n with Image := image } = none := by
  rw [node_validate_eq_none_iff, node_validateErrs_eq_expected, expectedErrs_nil_iff] at hv ⊢
  obtain ⟨h1, _, h3, h4, h5, h6, h7⟩ := hv
  exact ⟨h1, hi, h3, h4, h5, h6, h7⟩

theorem setFirstImage_split (R : RoleNames) (image : String) (l l2 : List Node)
    (h : setFirstImage R image l = some l2) :
    ∃ pre b post, l = pre ++ b :: post ∧ (∀ n ∈ pre, n.Role ≠ R.ControlPlaneRole) ∧
      b.Role = R.ControlPlaneRole ∧ l2 = pre ++ { b with Image := image } :: post := by
  induction l generalizing l2 with
  | nil => simp [setFirstImage] at h
  | cons n rest ih =>
    unfold setFirstImage at h
    by_cases hr : n.Role = R.ControlPlaneRole
    · have hb : (n.Role == R.ControlPlaneRole) = true := by simpa using hr
      rw [if_pos hb] at h
      exact ⟨[], n, rest, rfl, by simp, hr, (Option.some.inj h).symm⟩
    · have hb : (n.Role == R.ControlPlaneRole) = false := by simpa using hr
      simp only [hb, Bool.false_eq_true, if_false, Option.map_eq_some'] at h
      obtain ⟨l3, h3, rfl⟩ := h
      obtain ⟨pre, b, post, hl, hpre, hbr, hl3⟩ := ih l3 h3
      refine ⟨n :: pre, b, post, by rw [hl]; rfl, ?_, hbr, by rw [hl3]; rfl⟩
      intro m hm
      rcases List.mem_cons.mp hm with rfl | hm
      · exact hr
      · exact hpre m hm

theorem setFirstImage_isSome (R : RoleNames) (image : String) (l : List Node)
    (h : l.countP (fun n => n.Role == R.ControlPlaneRole) ≠ 0) :
    ∃ l2, setFirstImage R image l = some l2 := by
  induction l with
  | nil => simp at h
  | cons n rest ih =>
    unfold setFirstImage
    by_cases hr : (n.Role == R.ControlPlaneRole) = true
    · exact ⟨_, by rw [if_pos hr]⟩
    · rw [if_neg hr]
      have hrest : rest.countP (fun n => n.Role == R.ControlPlaneRole) ≠ 0 := by
        rw [List.countP_cons] at h
        simpa [hr] using h
      obtain ⟨l2, hl2⟩ := ih hrest
      exact ⟨n :: l2, by rw [hl2]; rfl⟩

theorem countP_role_set_image (x : String) (pre post : List Node) (b : Node) (image : String) :
    (pre ++ { b with Image := image } :: post).countP (fun n => n.Role == x) =
      (pre ++ b :: post).countP (fun n => n.Role == x) := by
  simp [List.countP_append, List.countP_cons]

theorem find_first_control_plane (R : RoleNames) (pre post : List Node) (b : Node)
    (hpre : ∀ n ∈ pre, n.Role ≠ R.ControlPlaneRole) (hb : b.Role = R.ControlPlaneRole) :
    (pre ++ b :: post).find? (fun n => n.Role == R.ControlPlaneRole) = some b := by
  induction pre with
  | nil => simp [hb]
  | cons n rest ih =>
    have hn : (n.Role == R.ControlPlaneRole) = false := by
      simpa using hpre n (List.mem_cons_self _ _)
    rw [List.cons_append, List.find?_cons_of_neg _ (by simp [hn])]
    exact ih (fun m hm => hpre m (List.mem_cons_of_mem _ hm))

/-- C18: when `Config.Validate` returns nil, the bootstrap control-plane node
exists, and replacing its Image by a non-empty string, as `runE` does for the
image flag, gives a configuration on which `Config.Validate` returns nil again:
the override dereferences no nil pointer and the second validation of `runE`
does not fail. -/
theorem image_override_keeps_valid (R : RoleNames) (c : Config) (image : String)
    (hv : c.Validate R = none) (hi : image ≠ "") :
    ∃ pre b post c2,
      c.Nodes = pre ++ b :: post ∧ (∀ n ∈ pre, n.Role ≠ R.ControlPlaneRole) ∧
      c.BootStrapControlPlane R = some b ∧
      c.setBootStrapImage R image = some c2 ∧
      c2.Nodes = pre ++ { b with Image := image } :: post ∧
      c2.Validate R = none ∧
      ∀ (env : Collaborators) (flags : flagpole),
        env.Load flags.Config = Except.ok c → env.AllReplicas c ≤ 1 →
        flags.ImageName = image →
        env.setBootStrapImage c image = c.setBootStrapImage R image →
        runE R env flags = createStep env flags c2 := by
  obtain ⟨hnodes, hcp, hlb⟩ := (config_valid_iff R c).mp hv
  obtain ⟨l2, hl2⟩ := setFirstImage_isSome R image c.Nodes hcp
  obtain ⟨pre, b, post, hl, hpre, hb, rfl⟩ := setFirstImage_split R image c.Nodes _ hl2
  have hset : c.setBootStrapImage R image =
      some ⟨pre ++ { b with Image := image } :: post⟩ := by
    unfold Config.setBootStrapImage
    rw [hl2]
    rfl
  have hv2 : Config.Validate R ⟨pre ++ { b with Image := image } :: post⟩ = none := by
    rw [config_valid_iff]
    unfold Config.controlPlaneCount Config.loadBalancerCount
    simp only [countP_role_set_image]
    rw [← hl]
    refine ⟨?_, hcp, hlb⟩
    intro n hn
    rcases List.mem_append.mp hn with hn | hn
    · exact hnodes n (by rw [hl]; exact List.mem_append_left _ hn)
    · rcases List.mem_cons.mp hn with rfl | hn
      · exact node_valid_set_image R b image (hnodes b (by rw [hl]; simp)) hi
      · exact hnodes n (by rw [hl]; simp [hn])
  refine ⟨pre, b, post, _, hl, hpre, ?_, hset, rfl, hv2, ?_⟩
  · unfold Config.BootStrapControlPlane
    rw [hl]
    exact find_first_control_plane R pre post b hpre hb
  · intro env flags hload hrep himg henv
    unfold runE
    rw [hload]
    simp only [hv]
    rw [if_neg (by omega), if_pos (by rw [himg]; exact hi), himg, henv, hset]
    simp only [hv2]

/-- The statement of C18 at scenario A with the image "img:v2". -/
theorem image_override_keeps_valid_witness :
    (scenarioA kindRoles).Validate kindRoles = none ∧ "img:v2" ≠ "" ∧
    ∃ pre b post c2,
      (scenarioA kindRoles).Nodes = pre ++ b :: post ∧
      (∀ n ∈ pre, n.Role ≠ kindRoles.ControlPlaneRole) ∧
      (scenarioA kindRoles).BootStrapControlPlane kindRoles = some b ∧
      (scenarioA kindRoles).setBootStrapImage kindRoles "img:v2" = some c2 ∧
      c2.Nodes = pre ++ { b with Image := "img:v2" } :: post ∧
      c2.Validate kindRoles = none ∧
      ∀ (env : Collaborators) (flags : flagpole),
        env.Load flags.Config = Except.ok (scenarioA kindRoles) →
        env.AllReplicas (scenarioA kindRoles) ≤ 1 →
        flags.ImageName = "img:v2" →
        env.setBootStrapImage (scenarioA kindRoles) "img:v2" =
          (scenarioA kindRoles).setBootStrapImage kindRoles "img:v2" →
        runE kindRoles env flags = createStep env flags c2 :=
  ⟨by decide, by decide,
    image_override_keeps_valid kindRoles (scenarioA kindRoles) "img:v2" (by decide) (by decide)⟩

/-! ## Node order -/

theorem nodeErrors_from_length (R : RoleNames) (nodes : List Node) (i : Nat) :
    ((nodes.enumFrom i).filterMap (fun p => (p.2.Validate R).map (nodeError p.1))).length =
      nodes.countP (fun n => (n.Validate R).isSome) := by
  induction nodes generalizing i with
  | nil => rfl
  | cons n rest ih =>
    cases h : n.Validate R with
    | none => simp [List.enumFrom_cons, List.filterMap_cons, List.countP_cons, h, ih]
    | some err => simp [List.enumFrom_cons, List.filterMap_cons, List.countP_cons, h, ih]

theorem config_errors_length (R : RoleNames) (c : Config) :
    (c.validateErrs R).length =
      c.Nodes.countP (fun n => (n.Validate R).isSome) +
        (if c.controlPlaneCount R = 0 then 1 else 0) +
        (if 1 < c.controlPlaneCount R ∧ c.loadBalancerCount R = 0 then 1 else 0) := by
  rw [config_validateErrs_eq_expected]
  unfold Config.expectedErrs expectedNodeErrors
  simp only [List.length_append, List.enum, nodeErrors_from_length]
  split_ifs <;> rfl

theorem config_validate_none_iff_length (R : RoleNames) (c : Config) :
    c.Validate R = none ↔ (c.validateErrs R).length = 0 := by
  rw [config_validate_eq]
  split_ifs with h
  · simp [h]
  · simp [h]

theorem nodeErrors_from_eraseIndex (R : RoleNames) (nodes : List Node) (i : Nat) :
    ((nodes.enumFrom i).filterMap (fun p => (p.2.Validate R).map (nodeError p.1))).map
        FmtError.eraseIndex =
      (nodes.filterMap (fun n => n.Validate R)).map
        (fun err => Errorf nodeFormat [FmtArg.err err]) := by
  induction nodes generalizing i with
  | nil => rfl
  | cons n rest ih =>
    cases h : n.Validate R with
    | none => simp [List.enumFrom_cons, List.filterMap_cons, h, ih]
    | some err =>
      simp only [List.enumFrom_cons, List.filterMap_cons, h, Option.map_some', List.map_cons, ih]
      rfl

theorem config_validateErrs_split (R : RoleNames) (c : Config) :
    c.validateErrs R = expectedNodeErrors R c.Nodes ++ c.topologyErrs R := by
  rw [config_validateErrs_eq_expected]
  unfold Config.expectedErrs Config.topologyErrs
  rw [List.append_assoc]

theorem topologyErrs_eraseIndex (R : RoleNames) (c : Config) :
    (c.topologyErrs R).map FmtError.eraseIndex = c.topologyErrs R := by
  unfold Config.topologyErrs
  split_ifs <;> rfl

theorem topologyErrs_perm (R : RoleNames) (c1 c2 : Config) (h : c1.Nodes.Perm c2.Nodes) :
    c2.topologyErrs R = c1.topologyErrs R := by
  unfold Config.topologyErrs Config.controlPlaneCount Config.loadBalancerCount
  rw [h.countP_eq, h.countP_eq]

theorem nodeError_mem_validateErrs (R : RoleNames) (c : Config) (i : Nat)
    (err : Errors String) :
    nodeError i err ∈ c.validateErrs R ↔ ∃ n, c.Nodes[i]? = some n ∧ n.Validate R = some err := by
  rw [config_validateErrs_split, List.mem_append, nodeError_mem_expected]
  constructor
  · rintro (h | h)
    · exact h
    · exfalso
      unfold Config.topologyErrs at h
      rcases List.mem_append.mp h with h | h
      · split_ifs at h
        · have heq : nodeError i err = controlPlaneError R := by simpa using h
          have hf : nodeFormat = controlPlaneFormat := congrArg FmtError.format heq
          exact absurd hf (by decide)
        · simp at h
      · split_ifs at h
        · have heq : nodeError i err = loadBalancerError R := by simpa using h
          have hf : nodeFormat = loadBalancerFormat := congrArg FmtError.format heq
          exact absurd hf (by decide)
        · simp at h
  · exact fun h => Or.inl h

/-- C19: acceptance by `Config.Validate` does not depend on the order of the
nodes: on a permutation of Nodes it returns nil exactly when it does on the
original, and the two results have the same number of errors. Only the indices
in the wrapped node errors change: the topology errors are the same, every
node's wrapped error is in the other result with the errors of that node and the
index of its new position, and with the index taken out the two error lists are
permutations of each other. -/
theorem validate_perm_invariant (R : RoleNames) (c1 c2 : Config)
    (h : c1.Nodes.Perm c2.Nodes) :
    (c1.Validate R = none ↔ c2.Validate R = none) ∧
    (c1.validateErrs R).length = (c2.validateErrs R).length ∧
    (∀ e1 e2, c1.Validate R = some e1 → c2.Validate R = some e2 →
      e1.errors.length = e2.errors.length) ∧
    c1.validateErrs R = expectedNodeErrors R c1.Nodes ++ c1.topologyErrs R ∧
    c2.validateErrs R = expectedNodeErrors R c2.Nodes ++ c1.topologyErrs R ∧
    (∀ i n err, c1.Nodes[i]? = some n → n.Validate R = some err →
      nodeError i err ∈ c1.validateErrs R ∧
        ∃ j, c2.Nodes[j]? = some n ∧ nodeError j err ∈ c2.validateErrs R) ∧
    (∀ j err, nodeError j err ∈ c2.validateErrs R → ∃ i, nodeError i err ∈ c1.validateErrs R) ∧
    ((c1.validateErrs R).map FmtError.eraseIndex).Perm
      ((c2.validateErrs R).map FmtError.eraseIndex) ∧
    (∀ i err, (nodeError i err).eraseIndex = ⟨nodeFormat, [FmtArg.err err]⟩) ∧
    (controlPlaneError R).eraseIndex = controlPlaneError R ∧
    (loadBalancerError R).eraseIndex = loadBalancerError R := by
  have hlen : (c1.validateErrs R).length = (c2.validateErrs R).length := by
    rw [config_errors_length, config_errors_length]
    unfold Config.controlPlaneCount Config.loadBalancerCount
    rw [h.countP_eq, h.countP_eq, h.countP_eq]
  have hs1 := config_validateErrs_split R c1
  have hs2 : c2.validateErrs R = expectedNodeErrors R c2.Nodes ++ c1.topologyErrs R := by
    rw [config_validateErrs_split, topologyErrs_perm R c1 c2 h]
  refine ⟨?_, hlen, ?_, hs1, hs2, ?_, ?_, ?_, fun _ _ => rfl, rfl, rfl⟩
  · rw [config_validate_none_iff_length, config_validate_none_iff_length, hlen]
  · intro e1 e2 h1 h2
    rw [config_validate_eq] at h1 h2
    split_ifs at h1 with ha
    split_ifs at h2 with hb
    cases h1
    cases h2
    exact hlen
  · intro i n err hi hv
    refine ⟨(nodeError_mem_validateErrs R c1 i err).mpr ⟨n, hi, hv⟩, ?_⟩
    have hmem1 : n ∈ c1.Nodes := List.getElem?_mem hi
    have hmem2 : n ∈ c2.Nodes := h.mem_iff.mp hmem1
    obtain ⟨j, hj⟩ := List.getElem?_of_mem hmem2
    exact ⟨j, hj, (nodeError_mem_validateErrs R c2 j err).mpr ⟨n, hj, hv⟩⟩
  · intro j err hmem
    obtain ⟨n, hj, hv⟩ := (nodeError_mem_validateErrs R c2 j err).mp hmem
    have hmem2 : n ∈ c2.Nodes := List.getElem?_mem hj
    have hmem1 : n ∈ c1.Nodes := h.mem_iff.mpr hmem2
    obtain ⟨i, hi⟩ := List.getElem?_of_mem hmem1
    exact ⟨i, (nodeError_mem_validateErrs R c1 i err).mpr ⟨n, hi, hv⟩⟩
  · rw [hs1, hs2, List.map_append, List.map_append]
    refine List.Perm.append_right _ ?_
    unfold expectedNodeErrors List.enum
    rw [nodeErrors_from_eraseIndex, nodeErrors_from_eraseIndex]
    exact (h.filterMap _).map _

/-- The statement of C19 at a node without image, a node without role and a
ControlPlane node, and the same nodes with the first two exchanged: two wrapped
errors each, the errors of each node under the index of its position. -/
theorem validate_perm_invariant_witness :
    (imageRoleControlPlane kindRoles).Nodes.Perm (roleImageControlPlane kindRoles).Nodes ∧
    ((imageRoleControlPlane kindRoles).validateErrs kindRoles).length =
      ((roleImageControlPlane kindRoles).validateErrs kindRoles).length ∧
    (imageRoleControlPlane kindRoles).validateErrs kindRoles =
      [nodeError 0 ⟨[imageMsg]⟩, nodeError 1 ⟨[roleMsg]⟩] ∧
    (roleImageControlPlane kindRoles).validateErrs kindRoles =
      [nodeError 0 ⟨[roleMsg]⟩, nodeError 1 ⟨[imageMsg]⟩] ∧
    (((imageRoleControlPlane kindRoles).validateErrs kindRoles).map FmtError.eraseIndex).Perm
      (((roleImageControlPlane kindRoles).validateErrs kindRoles).map FmtError.eraseIndex) ∧
    (workerThenControlPlane kindRoles).validateErrs kindRoles = [nodeError 0 ⟨[imageMsg]⟩] ∧
    (controlPlaneThenWorker kindRoles).validateErrs kindRoles = [nodeError 1 ⟨[imageMsg]⟩] :=
  ⟨List.Perm.swap _ _ _,
    (validate_perm_invariant kindRoles (imageRoleControlPlane kindRoles)
      (roleImageControlPlane kindRoles) (List.Perm.swap _ _ _)).2.1,
    by decide, by decide,
    (validate_perm_invariant kindRoles (imageRoleControlPlane kindRoles)
      (roleImageControlPlane kindRoles) (List.Perm.swap _ _ _)).2.2.2.2.2.2.2.1,
    by decide, by decide⟩

/-! ## Lemmas on the store -/

theorem node_validateStore_eq (R : RoleNames) (s : Store) :
    Node.validateStore R s = ({ s with nodeErrs := s.n.validateErrs R }, s.n.Validate R) := by
  rcases s with ⟨cfg, errs, ⟨role, image, rep, cp⟩, ne⟩
  unfold Node.validateStore Node.Validate Node.validateErrs
  cases h1 : roleRecognized R role <;> by_cases h2 : image = "" <;>
    rcases rep with _ | r <;> rcases cp with _ | ⟨_ | lc⟩ <;>
    simp [h1, h2] <;> split_ifs <;> simp_all

theorem validateNodesStore_eq (R : RoleNames) (nodes : List Node) (i : Nat) (s : Store) :
    (validateNodesStore R nodes i s).cfg = s.cfg ∧
    (validateNodesStore R nodes i s).errs = validateNodes R nodes i s.errs := by
  induction nodes generalizing i s with
  | nil => exact ⟨rfl, rfl⟩
  | cons node rest ih =>
    unfold validateNodesStore validateNodes
    simp only [node_validateStore_eq]
    cases h : node.Validate R with
    | none =>
      simp only []
      exact ih _ _
    | some err =>
      simp only []
      exact ih _ _

theorem config_validateStore_eq (R : RoleNames) (s : Store) :
    (Config.validateStore R s).1.cfg = s.cfg ∧
    (Config.validateStore R s).1.errs = s.cfg.validateErrs R ∧
    (Config.validateStore R s).2 = s.cfg.Validate R := by
  have h := validateNodesStore_eq R s.cfg.Nodes 0 { s with errs := [] }
  obtain ⟨hc, he⟩ := h
  simp only at hc he
  unfold Config.validateStore Config.Validate Config.validateErrs
  simp only [hc]
  split_ifs <;> simp_all

/-- C15: `Config.Validate` is deterministic and idempotent: a call leaves the
configuration behind its receiver as it was and returns a result fixed by that
configuration alone, whatever the variables of the two methods held before; so
a second call on the store the first one left returns the identical result.
The independence rests on the fresh `errs` of line 28: the loop alone keeps what
it finds in `errs`. -/
theorem validate_idempotent (R : RoleNames) (s : Store) :
    (Config.validateStore R s).1.cfg = s.cfg ∧
    (Config.validateStore R s).2 = s.cfg.Validate R ∧
    (Config.validateStore R (Config.validateStore R s).1).2 = (Config.validateStore R s).2 ∧
    (Config.validateStore R (Config.validateStore R s).1).1.cfg = s.cfg ∧
    (∀ s2 : Store, s2.cfg = s.cfg →
      (Config.validateStore R s2).2 = (Config.validateStore R s).2) ∧
    (Config.validateStore kindRoles usedStore).2 =
      some ⟨[nodeError 0 ⟨[roleMsg, imageMsg]⟩, controlPlaneError kindRoles]⟩ ∧
    (Config.validateStore kindRoles (Config.validateStore kindRoles usedStore).1).2 =
      some ⟨[nodeError 0 ⟨[roleMsg, imageMsg]⟩, controlPlaneError kindRoles]⟩ ∧
    (validateNodesStore kindRoles usedStore.cfg.Nodes 0 usedStore).errs =
      usedStore.errs ++ [nodeError 0 ⟨[roleMsg, imageMsg]⟩] := by
  have h1 := config_validateStore_eq R s
  have h2 := config_validateStore_eq R (Config.validateStore R s).1
  refine ⟨h1.1, h1.2.2, ?_, ?_, ?_, by decide, by decide, by decide⟩
  · rw [h2.2.2, h1.2.2, h1.1]
  · rw [h2.1, h1.1]
  · intro s2 hs
    rw [(config_validateStore_eq R s2).2.2, h1.2.2, hs]

end Kind
